import Mathlib

set_option maxRecDepth 10000

/-!
Shallow embedding of the crash-report field-extraction engine of the
`mohitdit/oh_sample` repository, together with proofs that settle the spec
claims against it.

The embedded code:
  * `src/utils/pdf_parser.py` — class `OhioPdfParser` (two-pass extraction on
    `raw_lines` / `pure_lines`, crash / case / vehicle / person extraction,
    person-to-vehicle mapping and final-record assembly).
  * `src/extract_crash_pdf.py` — the standalone page-regex extractor (only the
    parts needed by the claims: `normalize_text`, `find`, the `report_number`
    entry of `extract_crash_info`, and its propagation into
    `map_to_required_schema`).

Note on the source text: the snapshot of `pdf_parser.py` contains blocks whose
indentation was uniformly shifted left by four spaces (from the `elif` chain of
`_extract_persons` onward, and the bodies of `_map_persons_to_vehicles` /
`_build_final_json`), which makes the file as given unparsable by Python.  The
embedding follows the unique indentation repair under which the file parses and
the methods keep their evident structure: the `elif` chains attach to their
section-anchor `if`, the per-vehicle JSON is appended inside the assembly loop,
the record is returned after it, and the trailing flush blocks sit at loop end.
All behaviour proved or refuted below is behaviour of that repaired program.

External collaborators are modelled as parameters: PDF text extraction supplies
each page's `layout=True` / `layout=False` text (`PdfPage`), and the optional
`webcolors` dependency is a predicate `isColor` (whether
`webcolors.name_to_hex` succeeds on a lowercased string).

Python-level primitives (`str.strip`, `in`, `str.split`, `int(...)`,
`float(...)`, `str.isdigit`, `datetime.strptime`/`strftime`, and the `re`
module operations actually used) are modelled explicitly below.  Regular
expressions are interpreted by a small backtracking engine (`Pat`, `patMat`)
whose alternative order and greediness mirror CPython's `re` engine on the
pattern subset the source uses (literals, character classes with bounded or
unbounded repetition, alternation, lookahead, fixed-width lookbehind, anchors).
-/

namespace OhSample

/-- Python whitespace for `str.strip` / `\s` (ASCII subset, which is all the
line data can contain). -/
def pyIsWs (c : Char) : Bool :=
  c = ' ' || c = '\t' || c = '\n' || c = '\r' || c = Char.ofNat 11 || c = Char.ofNat 12

/-- Python `str.strip()` on a character list. -/
def stripL (s : List Char) : List Char :=
  ((s.dropWhile pyIsWs).reverse.dropWhile pyIsWs).reverse

/-- Python `str.strip()`. -/
def pyStrip (s : String) : String := String.mk (stripL s.toList)

/-- List prefix test. -/
def isPrefixL : List Char → List Char → Bool
  | [], _ => true
  | _ :: _, [] => false
  | a :: as, b :: bs => a = b && isPrefixL as bs

/-- Substring containment on lists (Python `needle in hay`). -/
def hasSubL (needle : List Char) : List Char → Bool
  | [] => isPrefixL needle []
  | c :: rest => isPrefixL needle (c :: rest) || hasSubL needle rest

/-- Python `needle in hay` for strings. -/
def pyIn (needle hay : String) : Bool := hasSubL needle.toList hay.toList

/-- Python `s.startswith(p)`. -/
def pyStarts (s p : String) : Bool := isPrefixL p.toList s.toList

/-- Python `s.endswith(p)`. -/
def pyEnds (s p : String) : Bool := isPrefixL p.toList.reverse s.toList.reverse

/-- Worker for Python `s.split()`: `cur` is the reversed pending token and
`acc` the tokens already produced. -/
def pySplitGo (cur : List Char) (acc : List (List Char)) :
    List Char → List (List Char)
  | [] => if cur.isEmpty then acc else acc ++ [cur.reverse]
  | c :: rest =>
    if pyIsWs c then
      if cur.isEmpty then pySplitGo [] acc rest
      else pySplitGo [] (acc ++ [cur.reverse]) rest
    else pySplitGo (c :: cur) acc rest

/-- Python `s.split()` (no argument): split on whitespace runs, no empties. -/
def pySplitWsL (l : List Char) : List (List Char) := pySplitGo [] [] l

/-- Python `s.split()` returning strings. -/
def pySplitWs (s : String) : List String := (pySplitWsL s.toList).map String.mk

/-- Digit body of a Python integer literal after the first digit, allowing
single underscores between digit groups. -/
def pyDigitsGo (acc : Nat) : List Char → Option Nat
  | [] => some acc
  | ['_'] => none
  | '_' :: d :: rest =>
    if d.isDigit then pyDigitsGo (acc * 10 + (d.toNat - '0'.toNat)) rest else none
  | c :: rest =>
    if c.isDigit then pyDigitsGo (acc * 10 + (c.toNat - '0'.toNat)) rest else none

/-- Digits of a Python integer literal body (`int("1_0") = 10`, while `"_1"`,
`"1_"`, `"1__0"` fail). -/
def pyDigitsU : List Char → Option Nat
  | [] => none
  | c :: rest => if c.isDigit then pyDigitsGo (c.toNat - '0'.toNat) rest else none

/-- Python `int(s)`: strip whitespace, optional sign, digit body. -/
def pyInt (s : String) : Option Int :=
  match stripL s.toList with
  | '+' :: rest => (pyDigitsU rest).map (fun n => (n : Int))
  | '-' :: rest => (pyDigitsU rest).map (fun n => -(n : Int))
  | rest => (pyDigitsU rest).map (fun n => (n : Int))

/-- Python `s.isdigit()` (ASCII digits). -/
def pyIsdigit (s : String) : Bool :=
  !s.toList.isEmpty && s.toList.all Char.isDigit

/-- Lowercase-insensitive literal equality helper for `float` special values. -/
def lowerEq (s : List Char) (t : String) : Bool :=
  (s.map Char.toLower) = t.toList

/-- Longest valid underscore-digit group at the front of a list; returns the
remainder (for the digit groups of a Python `float` literal). -/
def digGroupRest : List Char → List Char
  | [] => []
  | c :: '_' :: d :: rest2 =>
    if c.isDigit then
      (if d.isDigit then digGroupRest (d :: rest2) else '_' :: d :: rest2)
    else c :: '_' :: d :: rest2
  | c :: rest => if c.isDigit then digGroupRest rest else c :: rest

/-- Whether a list starts with a nonempty underscore-digit group. -/
def digGroupStarts : List Char → Bool
  | [] => false
  | c :: _ => c.isDigit

/-- Exponent-or-nothing tail of a Python `float` literal. -/
def pyFloatExpOk : List Char → Bool
  | [] => true
  | 'e' :: rest => pyFloatSigned rest
  | 'E' :: rest => pyFloatSigned rest
  | _ => false
where
  pyFloatSigned : List Char → Bool
    | '+' :: rest => pyFloatDigs rest
    | '-' :: rest => pyFloatDigs rest
    | rest => pyFloatDigs rest
  pyFloatDigs (l : List Char) : Bool :=
    digGroupStarts l && (digGroupRest l).isEmpty

/-- Whether Python `float(s)` succeeds.  Models CPython's accepted syntax
(optional sign; `inf`/`infinity`/`nan`; decimal with optional fraction and
exponent; single underscores inside digit groups).  Used only by the
`LOCATION ROAD NAME` branch of `_extract_crash_basic_info`. -/
def pyFloatOk (s : String) : Bool :=
  let t := stripL s.toList
  let body := match t with
    | '+' :: rest => rest
    | '-' :: rest => rest
    | rest => rest
  lowerEq body "inf" || lowerEq body "infinity" || lowerEq body "nan" || numOk body
where
  numOk (body : List Char) : Bool :=
    let hasIp := digGroupStarts body
    let rest1 := if hasIp then digGroupRest body else body
    match rest1 with
    | '.' :: rest2 =>
      let hasFp := digGroupStarts rest2
      let rest3 := if hasFp then digGroupRest rest2 else rest2
      (hasIp || hasFp) && pyFloatExpOk rest3
    | _ => hasIp && pyFloatExpOk rest1

/-- Patterns of the regular-expression subset the source uses. -/
inductive Pat where
  | lit : List Char → Pat
  | cls : (Char → Bool) → Nat → Option Nat → Pat
  | seq : Pat → Pat → Pat
  | alt : Pat → Pat → Pat
  | look : Pat → Pat
  | lookb : Pat → Nat → Pat
  | bol : Pat
  | eol : Pat

/-- Literal match at a position. -/
def litAt (s l : List Char) (pos : Nat) : Bool :=
  isPrefixL l (s.drop pos)

/-- Length of the maximal run of class characters at a position. -/
def runLen (s : List Char) (c : Char → Bool) (pos : Nat) : Nat :=
  ((s.drop pos).takeWhile c).length

/-- Greedy descent: try consuming `lo + n, lo + n - 1, …, lo` class
characters, first success wins (mirrors greedy bounded repetition with
backtracking); `n` counts the candidates above the minimum. -/
def descTry (k : Nat → Option Nat) (pos lo : Nat) : Nat → Option Nat
  | 0 => k (pos + lo)
  | n + 1 =>
    match k (pos + lo + (n + 1)) with
    | some e => some e
    | none => descTry k pos lo n

/-- Backtracking matcher in continuation style: `patMat s p pos k` matches `p`
at `pos` in `s` and passes the end position to `k`; alternatives are tried in
the same order as CPython's engine (left alternative first, greedy repetition
longest-first). -/
def patMat (s : List Char) : Pat → Nat → (Nat → Option Nat) → Option Nat
  | .lit l, pos, k => if litAt s l pos then k (pos + l.length) else none
  | .cls c lo hi, pos, k =>
    let r := runLen s c pos
    let top := match hi with
      | some h => min h r
      | none => r
    if top < lo then none else descTry k pos lo (top - lo)
  | .seq a b, pos, k => patMat s a pos (fun p => patMat s b p k)
  | .alt a b, pos, k =>
    match patMat s a pos k with
    | some e => some e
    | none => patMat s b pos k
  | .look p, pos, k =>
    match patMat s p pos some with
    | some _ => k pos
    | none => none
  | .lookb p n, pos, k =>
    if n ≤ pos then
      match patMat s p (pos - n) (fun e => if e = pos then some e else none) with
      | some _ => k pos
      | none => none
    else none
  | .bol, pos, k => if pos = 0 then k pos else none
  | .eol, pos, k => if pos = s.length then k pos else none

/-- Fuelled scan for the leftmost match position (the fuel is the number of
candidate start positions left, always sufficient at the call site). -/
def patSearchFuel (s : List Char) (p : Pat) : Nat → Nat → Option (Nat × Nat)
  | _, 0 => none
  | pos, fuel + 1 =>
    match patMat s p pos some with
    | some e => some (pos, e)
    | none => if pos < s.length then patSearchFuel s p (pos + 1) fuel else none

/-- Leftmost search from a given position: Python `re.search` semantics. -/
def patSearchFrom (s : List Char) (p : Pat) (pos : Nat) : Option (Nat × Nat) :=
  patSearchFuel s p pos (s.length + 1 - pos)

/-- Substring of a character list by positions. -/
def sliceL (s : List Char) (a b : Nat) : List Char := (s.drop a).take (b - a)

/-- Python `re.search(p, s)` returning `match.group(0)`. -/
def reSearch (p : Pat) (s : String) : Option String :=
  (patSearchFrom s.toList p 0).map (fun q => String.mk (sliceL s.toList q.1 q.2))

/-- Whether `re.search(p, s)` succeeds. -/
def reTest (p : Pat) (s : String) : Bool := (patSearchFrom s.toList p 0).isSome

/-- Python `re.split(p, s)` (our split patterns never match the empty string;
the fuel equals the string length plus one, enough for every real match). -/
def reSplitGo (s : List Char) (p : Pat) : Nat → Nat → List String
  | _, 0 => []
  | cur, fuel + 1 =>
    match patSearchFrom s p cur with
    | none => [String.mk (s.drop cur)]
    | some (a, b) =>
      if b ≤ cur then [String.mk (s.drop cur)]
      else String.mk (sliceL s cur a) :: reSplitGo s p b fuel

/-- Python `re.split(p, s)`. -/
def reSplit (p : Pat) (s : String) : List String :=
  reSplitGo s.toList p 0 (s.toList.length + 1)

/-- First match of `seq base (look inner)` and the text of the look-ahead
group: used for `re.findall(r'base(?=(inner))', s)[0]` and for trailing
capture groups (re-running `inner` at the match end reproduces the group the
engine captured, because the look-ahead succeeded exactly there). -/
def searchLookGroup (base inner : Pat) (s : String) : Option String :=
  let l := s.toList
  match patSearchFrom l (.seq base (.look inner)) 0 with
  | none => none
  | some (_, e) =>
    match patMat l inner e some with
    | some e2 => some (String.mk (sliceL l e e2))
    | none => none

/-- Shorthand: literal pattern from a string. -/
def plit (t : String) : Pat := .lit t.toList

/-- Shorthand: case-insensitive literal (for `re.IGNORECASE` searches). -/
def plitCI (t : String) : Pat :=
  t.toList.foldr (fun c acc => .seq (.cls (fun x => x.toLower = c.toLower) 1 (some 1)) acc)
    (.lit [])

/-- Python `\d` (ASCII digits in the source's data). -/
def pDig : Char → Bool := Char.isDigit

/-- Python `\w` (ASCII letters, digits, underscore). -/
def pWord (c : Char) : Bool := c.isAlphanum || c = '_'

/-- First index at which a needle occurs as a substring, if any. -/
def findSubIdx (needle : List Char) : List Char → Option Nat
  | [] => if isPrefixL needle [] then some 0 else none
  | c :: rest =>
    if isPrefixL needle (c :: rest) then some 0
    else (findSubIdx needle rest).map (· + 1)

/-- Text after the first occurrence of a needle, to the end of the string:
`re.search(r'(?<=needle).*', line)` on newline-free lines. -/
def subAfter (needle s : String) : Option String :=
  (findSubIdx needle.toList s.toList).map
    (fun i => String.mk (s.toList.drop (i + needle.toList.length)))

/-- Python `s.lower()` (ASCII data). -/
def strLower (s : String) : String := String.mk (s.toList.map Char.toLower)

/-- Worker for Python `s.split(sep)`: non-overlapping left-to-right splits,
keeping empty pieces; the fuel (initially the string length plus one) bounds
the number of splits for a nonempty separator. -/
def splitSepGo (sep : List Char) : Nat → List Char → List (List Char)
  | 0, l => [l]
  | fuel + 1, l =>
    match findSubIdx sep l with
    | some i => l.take i :: splitSepGo sep fuel (l.drop (i + sep.length))
    | none => [l]

/-- Python `s.split(sep)` with a literal nonempty separator. -/
def pySplitOn (s sep : String) : List String :=
  (splitSepGo sep.toList (s.toList.length + 1) s.toList).map String.mk

/-- Fixed-width literal lookbehind `(?<=t)`. -/
def plookb (t : String) : Pat := .lookb (plit t) t.toList.length

/-- Python `\s` as a class argument. -/
def pWs : Char → Bool := pyIsWs

/-- The pattern `\d{1,2}`. -/
def pDig12 : Pat := .cls pDig 1 (some 2)

/-- List element with Python-style guard already checked by the caller:
out-of-range reads return `""` (every source access is bounds-guarded). -/
def ln (ls : List String) (i : Nat) : String := ls.getD i ""

/-! ## Data model

One record per Python dictionary shape.  Draft records (`…Draft`) model the
accumulating dictionaries (`current_vehicle`, `current_person`, …): an
`Option` field is `none` exactly when the key is absent, and dictionary
truthiness is "some field is set". -/

/-- One input page, as delivered by the external text extractor: the
`layout=True` text (`raw` mode) and the `layout=False` text (`pure` mode). -/
structure PdfPage where
  rawText : String
  pureText : String
deriving Repr, DecidableEq

/-- Result dictionary of `_extract_crash_basic_info` (all keys initialised). -/
structure CrashInfo where
  report_number : String := ""
  case_number : String := ""
  department : String := ""
  municipality : String := ""
  municipality_code : String := ""
  no_of_vehicles : Int := 0
  county : String := ""
  locality_code : String := ""
  location : String := ""
  date_of_crash : String := ""
  reference_road_name : String := ""
  local_road_name : String := ""
deriving Repr, DecidableEq

/-- Result dictionary of `_extract_case_info` (source key `route_prefix` is
rendered `route_pfx` here). -/
structure CaseInfo where
  crash_severity : Int := 0
  locality : String := "TOWNSHIP"
  route_type : String := "NA"
  route_number : String := "NA"
  route_pfx : String := "NA"
deriving Repr, DecidableEq

/-- The accumulating `current_vehicle` dictionary of `_extract_vehicles`. -/
structure VehDraft where
  vehicle_unit : Option Int := none
  owner_name : Option String := none
  owner_phone : Option String := none
  owner_address : Option String := none
  carrier_name : Option String := none
  carrier_number : Option String := none
  vin : Option String := none
  plate_state : Option String := none
  plate_no : Option String := none
  year : Option Int := none
  make : Option String := none
  policy_no : Option String := none
  color : Option String := none
  model : Option String := none
  is_commercial : Option Bool := none
  is_towed : Option Bool := none
  is_hit_and_run : Option Bool := none
  vehicle_type : Option Int := none
  no_of_trailer : Option Int := none
  special_function : Option String := none
  veh_body_type : Option Int := none
  is_parked : Option Bool := none
deriving Repr, DecidableEq

/-- Python truthiness of the `current_vehicle` dictionary: nonempty. -/
def VehDraft.isT (v : VehDraft) : Bool :=
  v.vehicle_unit.isSome || v.owner_name.isSome || v.owner_phone.isSome ||
  v.owner_address.isSome || v.carrier_name.isSome || v.carrier_number.isSome ||
  v.vin.isSome || v.plate_state.isSome || v.plate_no.isSome || v.year.isSome ||
  v.make.isSome || v.policy_no.isSome || v.color.isSome || v.model.isSome ||
  v.is_commercial.isSome || v.is_towed.isSome || v.is_hit_and_run.isSome ||
  v.vehicle_type.isSome || v.no_of_trailer.isSome || v.special_function.isSome ||
  v.veh_body_type.isSome || v.is_parked.isSome

/-- The accumulating `current_vehicle_info` dictionary of `_extract_vehicles`. -/
structure VehInfoDraft where
  vehicle_unit : Option Int := none
  damage_severity : Option String := none
  insurance_verified : Option String := none
  insurance_company : Option String := none
  us_dot : Option String := none
  towed_by : Option String := none
  no_of_occupants : Option Int := none
  contributing_circumstance : Option Int := none
  crash_seq_1st_event : Option Int := none
  crash_seq_2nd_event : Option Int := none
  crash_seq_3rd_event : Option Int := none
  crash_seq_4th_event : Option Int := none
  harmful_event : Option Int := none
  most_harmful_event : Option Int := none
  damaged_area : Option String := none
  initial_impact : Option String := none
  vehicle_defects : Option String := none
deriving Repr, DecidableEq

/-- Address block of the output person record. -/
structure AddressBlock where
  address_line1 : String := ""
  address_city : String := ""
  address_state : String := ""
  address_zip : String := ""
deriving Repr, DecidableEq

/-- Output person record (the `person_json` built in
`_map_persons_to_vehicles`). -/
structure PersonJson where
  person_type : String := ""
  first_name : String := ""
  middle_name : String := ""
  last_name : String := ""
  same_as_driver : String := ""
  address_block : AddressBlock := {}
  seating_position : String := ""
  date_of_birth : String := ""
  gender : String := ""
  alcohol_or_drug_involved : String := ""
  ethnicity : String := ""
  occupant : String := ""
  airbag_deployed : String := ""
  airbag_status : String := ""
  trapped : String := ""
  ejection : String := ""
  injury : String := ""
  ems_name : String := ""
  injured_taken_by_ems : String := ""
  age : String := ""
  injured_taken_to : String := ""
  driver_info_id : String := ""
  alcohol_test_status : String := ""
  alcohol_test_type : String := ""
  alcohol_test_value : String := ""
  drug_test_status : String := ""
  drug_test_type : String := ""
  drug_test_value : String := ""
  offense_charged : String := ""
  local_code : String := ""
  offense_description : String := ""
  citation_number : String := ""
  contact_number : String := ""
  ol_class : String := ""
  endorsement : String := ""
  restriction : String := ""
  driver_distracted_by : String := ""
  driving_license : String := ""
  dl_state : String := ""
  alcohol_or_drug_suspected : String := ""
deriving Repr, DecidableEq

/-- Intermediate vehicle dictionary produced by `_build_vehicle_dict`.
`veh_body_type` keeps the raw `int`-or-absent shape (`veh.get(…, "")`
stringifies either an `int` or the `""` default). -/
structure BuiltVehicle where
  vehicle_unit : Int := 1
  is_commercial : Bool := false
  make : String := ""
  model : String := ""
  year : Int := 0
  plate_no : String := ""
  plate_state : String := ""
  vin : String := ""
  policy_no : String := ""
  is_towed : Bool := false
  is_hit_and_run : Bool := false
  vehicle_type : Int := 1
  no_of_trailer : Int := 0
  color : String := ""
  veh_body_type : Option Int := none
  special_function : String := ""
  is_parked : Bool := false
  vehicle_info : VehInfoDraft := {}
  persons : List PersonJson := []
deriving Repr, DecidableEq

/-- The accumulating `current_person` dictionary of `_extract_persons`. -/
structure PersonDraft where
  person_index : Option Int := none
  vehicle_number : Option Int := none
  first_name : Option String := none
  last_name : Option String := none
  middle_name : Option String := none
  address : Option String := none
  city : Option String := none
  state : Option String := none
  zip : Option String := none
  phone_number : Option String := none
  is_same_as_driver : Option Bool := none
  person_condition : Option String := none
deriving Repr, DecidableEq

/-- Python truthiness of the `current_person` dictionary: nonempty. -/
def PersonDraft.isT (p : PersonDraft) : Bool :=
  p.person_index.isSome || p.vehicle_number.isSome || p.first_name.isSome ||
  p.last_name.isSome || p.middle_name.isSome || p.address.isSome ||
  p.city.isSome || p.state.isSome || p.zip.isSome || p.phone_number.isSome ||
  p.is_same_as_driver.isSome || p.person_condition.isSome

/-- The accumulating `current_person_info` dictionary of `_extract_persons`. -/
structure PersonInfoDraft where
  person_index : Option Int := none
  injuries : Option String := none
  injured_taken_by_ems : Option String := none
  name_of_ems : Option String := none
  injured_taken_to : Option String := none
  seating_position : Option Int := none
  air_bag_status : Option Int := none
  air_bag_deployed : Option Int := none
  ejection : Option Int := none
  trapped : Option Int := none
  vehicle_unit : Option Int := none
  date_of_birth : Option String := none
  age : Option Int := none
  gender : Option String := none
deriving Repr, DecidableEq

/-- The accumulating `current_driver_info` dictionary of `_extract_persons`. -/
structure DriverDraft where
  person_index : Option Int := none
  vehicle_unit : Option Int := none
  contact_number : Option String := none
  dl_state : Option String := none
  ol_class : Option String := none
  endorsement : Option String := none
  restriction : Option String := none
  driver_distracted_by : Option String := none
  driving_licence : Option String := none
  offense_charged : Option String := none
  offense_description : Option String := none
  citation_number : Option String := none
  alcohol_drug_suspected : Option String := none
  alcohol_test_status : Option String := none
  alcohol_test_type : Option String := none
  alcohol_test_value : Option String := none
  drug_test_status : Option String := none
  drug_test_type : Option String := none
  drug_test_value : Option String := none
deriving Repr, DecidableEq

/-- One element of the `persons` list returned by `_extract_persons`. -/
structure PersonsEntry where
  basic : PersonDraft
  info : PersonInfoDraft
  driver : DriverDraft
deriving Repr, DecidableEq

/-- Nested `vehicle_details` object of the output vehicle record. -/
structure VehicleDetailsJson where
  crash_seq_1st_event : String := ""
  crash_seq_2nd_event : String := ""
  crash_seq_3rd_event : String := ""
  crash_seq_4th_event : String := ""
  harmful_event : String := ""
  authorized_speed : String := ""
  estimated_original_speed : String := ""
  estimated_impact_speed : String := ""
  tad : String := ""
  estimated_damage : String := ""
  most_harmful_event : String := ""
  insurance_company : String := ""
  insurance_verified : String := ""
  us_dot : String := ""
  towed_by : String := ""
  occupant_count : String := ""
  initial_impact : String := ""
  contributing_circumstance : String := ""
  damage_severity : String := ""
  damaged_area : String := ""
  vehicle_defects : String := ""
  overweight_permit : String := ""
deriving Repr, DecidableEq

/-- Output vehicle record (`vehicle_json` of `_build_final_json`). -/
structure VehicleJson where
  vehicle_unit : String := ""
  is_commercial : String := ""
  make : String := ""
  model : String := ""
  vehicle_year : String := ""
  plate_number : String := ""
  plate_state : String := ""
  plate_year : String := ""
  vin : String := ""
  policy : String := ""
  is_driven : String := ""
  is_left_at_scene : String := ""
  is_towed : String := ""
  is_impounded : String := ""
  is_disabled : String := ""
  is_parked : String := ""
  is_pedestrian : String := ""
  is_pedal_cyclist : String := ""
  is_hit_and_run : String := ""
  vehicle_used : String := ""
  vehicle_type : String := ""
  trailer_or_carrier_count : String := ""
  color : String := ""
  vehicle_body_type : String := ""
  vehicle_travel_direction : String := ""
  vehicle_details : VehicleDetailsJson := {}
  persons : List PersonJson := []
deriving Repr, DecidableEq

/-- Output case-detail record (source key `route_prefix` is `route_pfx`). -/
structure CaseDetailJson where
  local_information : String := ""
  locality : String := ""
  location : String := ""
  route_type : String := ""
  route_number : String := ""
  route_pfx : String := ""
  lane_speed_limit_1 : String := ""
  lane_speed_limit_2 : String := ""
  crash_severity : String := ""
deriving Repr, DecidableEq

/-! ## `OhioPdfParser._extract_crash_basic_info` -/

/-- Character class `[0-9\-A-Za-z ]` of the report-number pattern (the second
alternative's `[0-9A-Za-z\- ]` is the same set). -/
def rptCls (c : Char) : Bool := c.isDigit || c = '-' || c.isAlpha || c = ' '

/-- The pattern `([0-9\-A-Za-z ]*(?=X(\s|P)))|([0-9A-Za-z\- ]*(?=PHOTOS))`
(src/utils/pdf_parser.py line 93). -/
def reRptNum : Pat :=
  .alt
    (.seq (.cls rptCls 0 none)
      (.look (.seq (plit "X") (.alt (.cls pWs 1 (some 1)) (plit "P")))))
    (.seq (.cls rptCls 0 none) (.look (plit "PHOTOS")))

/-- One iteration of the `_extract_crash_basic_info` scan (the `if`/`elif`
chain on `self.raw_lines[l]`). -/
def cbiStep (raw : List String) (l : Nat) (info : CrashInfo) : CrashInfo :=
  let line := ln raw l
  let n := raw.length
  if pyIn "LOCAL INFORMATION" line then
    match subAfter "LOCAL INFORMATION" line with
    | some rest => { info with case_number := pyStrip rest }
    | none => info
  else if pyIn "REPORT NUMBER *" line || pyIn "LOCAL REPORT NUMBER *" line then
    if l + 1 < n then
      match reSearch reRptNum (ln raw (l + 1)) with
      | some m => { info with report_number := pyStrip m }
      | none => info
    else info
  else if pyStarts line "REPORTING AGENCY NAME *" then
    if l + 1 < n then
      let next := ln raw (l + 1)
      if !pyIn "NCIC *" next then
        { info with department := pyStrip next, municipality := pyStrip next }
      else info
    else info
  else if pyStarts line "NCIC *" then
    if l + 1 < n then
      let next := ln raw (l + 1)
      if !pyStarts next "NUMBER OF UNITS" then
        let parts := pySplitOn (pyStrip next) " "
        if 2 ≤ parts.length then
          let info := { info with municipality_code := ln parts 0 }
          match pyInt (ln parts 1) with
          | some v => { info with no_of_vehicles := v }
          | none => info
        else info
      else info
    else info
  else if pyStarts line "COUNTY*" then
    if 1 ≤ l && pyIn "UNSOLVED" (ln raw (l - 1)) then
      if l + 1 < n then
        let next := ln raw (l + 1)
        if !pyIn "CITY" next then { info with county := pyStrip next } else info
      else info
    else info
  else if pyStarts line "LOCALITY*" then
    if 1 ≤ l && pyEnds (ln raw (l - 1)) "TOWNSHIP" then
      if l + 1 < n then
        let next := ln raw (l + 1)
        if !pyIn "LOCATION: CITY, VILLAGE, TOWNSHIP*" next then
          { info with locality_code := pyStrip next }
        else info
      else info
    else info
  else if pyStarts line "LOCATION: CITY, VILLAGE, TOWNSHIP*" then
    if l + 1 < n then
      let next := ln raw (l + 1)
      if !pyIn "CRASH DATE" next then { info with location := pyStrip next } else info
    else info
  else if pyStarts line "CRASH DATE / TIME*" then
    if l + 1 < n then
      let next := ln raw (l + 1)
      if !pyIn "LATITUDE" next then { info with date_of_crash := pyStrip next } else info
    else info
  else if pyIn "REFERENCE ROAD NAME (ROAD, MILEPOST, HOUSE #)" line then
    if l + 1 < n then
      let next := ln raw (l + 1)
      if !pyIn "ROUTE TYPE" next then { info with reference_road_name := pyStrip next }
      else info
    else info
  else if pyStarts line "LOCATION ROAD NAME" then
    if (l + 3 < n && pyStarts (ln raw (l + 3)) "DISTANCE") ||
       (l + 2 < n && pyStarts (ln raw (l + 2)) "DISTANCE") then
      if pyFloatOk (pyStrip (ln raw (l + 1))) then info
      else { info with local_road_name := pyStrip (ln raw (l + 1)) }
    else info
  else info

/-- `OhioPdfParser._extract_crash_basic_info`. -/
def extractCrashBasicInfo (raw : List String) : CrashInfo :=
  (List.range raw.length).foldl (fun info l => cbiStep raw l info) {}

/-! ## `OhioPdfParser._extract_case_info` -/

/-- The split pattern `1\s*-|1-` of the crash-severity branch. -/
def reSev : Pat :=
  .alt (.seq (plit "1") (.seq (.cls pWs 0 none) (plit "-"))) (plit "1-")

/-- The route-prefix scan `for p in range(l + offset, l + offset + 3)`: every
`p` with `"1 - NORTH"` in the line updates the prefix (last one wins). -/
def routePfxScan (raw : List String) (lo : Nat) (acc : CaseInfo) : CaseInfo :=
  [lo, lo + 1, lo + 2].foldl
    (fun acc p =>
      if p < raw.length && pyIn "1 - NORTH" (ln raw p) then
        if 1 ≤ p then { acc with route_pfx := pyStrip (ln raw (p - 1)) } else acc
      else acc)
    acc

/-- First offset in a list for which the given line test holds. -/
def firstOffset (raw : List String) (l : Nat) (needle : String) :
    List Nat → Option Nat
  | [] => none
  | o :: rest =>
    if l + o < raw.length && pyIn needle (ln raw (l + o)) then some o
    else firstOffset raw l needle rest

/-- One iteration of the `_extract_case_info` scan; returns the updated info
and whether the loop `break` fired. -/
def caseStep (raw : List String) (l : Nat) (info : CaseInfo) : CaseInfo × Bool :=
  let line := ln raw l
  let n := raw.length
  if pyEnds line "FATAL" then
    let parts := reSplit reSev line
    if 1 < parts.length then
      match pyInt (pyStrip (ln parts 0)) with
      | some v => ({ info with crash_severity := v }, false)
      | none => (info, false)
    else (info, false)
  else if pyStarts line "LOCALITY*" then
    if 1 ≤ l && pyEnds (ln raw (l - 1)) "TOWNSHIP" then
      if l + 1 < n then
        let next := ln raw (l + 1)
        if !pyIn "LOCATION: CITY, VILLAGE, TOWNSHIP*" next then
          match pyInt (pyStrip next) with
          | some v =>
            let code := v - 1
            if 0 ≤ code && code < 3 then
              (({ info with locality := ln ["CITY", "VILLAGE", "TOWNSHIP"] code.toNat }), false)
            else (info, false)
          | none => (info, false)
        else (info, false)
      else (info, false)
    else (info, false)
  else if line = "LOCATION" && l + 1 < n && ln raw (l + 1) = "REFERENCE" then
    if l + 2 < n && pyIn "ROUTE NUMBER" (ln raw (l + 2)) then
      match firstOffset raw l "ROUTE TYPE ROUTE NUMBER PREFIX" [7, 8, 9, 10, 11] with
      | some o =>
        let info := routePfxScan raw (l + o) info
        ({ info with route_type := "NA", route_number := "NA" }, true)
      | none =>
        let info :=
          match firstOffset raw l "ROUTE TYPE ROUTE NUMBER" [7, 8, 9, 10] with
          | some o =>
            if 1 ≤ l + o then { info with route_type := pyStrip (ln raw (l + o - 1)) }
            else info
          | none => info
        let info :=
          match firstOffset raw l "PREFIX 1 - NORTH" [9, 10, 11, 12] with
          | some o =>
            if 1 ≤ l + o then { info with route_number := pyStrip (ln raw (l + o - 1)) }
            else info
          | none => info
        ({ info with route_pfx := "NA" }, true)
    else (info, false)
  else (info, false)

/-- `OhioPdfParser._extract_case_info` (the scan stops at the route `break`). -/
def extractCaseInfo (raw : List String) : CaseInfo :=
  ((List.range raw.length).foldl
    (fun st l =>
      if st.2 then st
      else caseStep raw l st.1)
    ({}, false)).1

/-- The final assembled record returned by `_build_final_json`. -/
structure FinalJson where
  incident_number : String := ""
  report_number : String := ""
  department : String := ""
  state_code : String := ""
  state_abbreviation : String := ""
  state_name : String := ""
  county_code : String := ""
  county : String := ""
  municipality_code : String := ""
  municipality : String := ""
  crash_location : String := ""
  crash_type_l1 : String := ""
  crash_type_l2 : String := ""
  date_of_crash : String := ""
  total_killed : String := ""
  total_injured : String := ""
  total_vehicles : String := ""
  case_file_s3_path : String := ""
  s3_bucket_name : String := ""
  s3_access_key : String := ""
  s3_secret_key : String := ""
  pdf_file_path : String := ""
  case_detail : List CaseDetailJson := []
  vehicles : List VehicleJson := []
deriving Repr, DecidableEq

/-! ## `OhioPdfParser._extract_vehicles` -/

/-- Split pattern `\s{2,}|DAMAGE SCALE` (vehicle-unit line). -/
def reSplitUnit : Pat := .alt (.cls pWs 2 none) (plit "DAMAGE SCALE")

/-- Split pattern `\s{2,}`. -/
def reSplitWs2 : Pat := .cls pWs 2 none

/-- Split pattern `\s{3,}`. -/
def reSplitWs3 : Pat := .cls pWs 3 none

/-- Split pattern `\s{3,}|DAMAGED AREA\(S\)` (commercial-carrier line). -/
def reSplitCarrier : Pat := .alt (.cls pWs 3 none) (plit "DAMAGED AREA(S)")

/-- Split pattern `\s{2,}|4 - RAN  STOP SIGN` (contributing circumstances). -/
def reSplitContrib : Pat := .alt (.cls pWs 2 none) (plit "4 - RAN  STOP SIGN")

/-- Pattern `\d{1,2}\s{1,15}(?=(2 - MINOR DAMAGE))` (damage severity). -/
def reDamageSev : Pat :=
  .seq pDig12 (.seq (.cls pWs 1 (some 15)) (.look (plit "2 - MINOR DAMAGE")))

/-- Character class `[a-zA-Z0-9,. ]` of the owner-address patterns. -/
def addrCls (c : Char) : Bool := c.isAlphanum || c = ',' || c = '.' || c = ' '

/-- Look-ahead group `\s{4,}\d\s{2,3}` of the first owner-address pattern. -/
def ownerInner1 : Pat :=
  .seq (.cls pWs 4 none) (.seq (.cls pDig 1 (some 1)) (.cls pWs 2 (some 3)))

/-- Look-ahead group `\s{4,}\d\s{1,2}-` of the second owner-address pattern. -/
def ownerInner2 : Pat :=
  .seq (.cls pWs 4 none)
    (.seq (.cls pDig 1 (some 1)) (.seq (.cls pWs 1 (some 2)) (plit "-")))

/-- Pattern `\w{17}` (vehicle identification number). -/
def reW17 : Pat := .cls pWord 17 (some 17)

/-- Pattern `\sX\s` (hit/skip marker). -/
def reWsXWs : Pat :=
  .seq (.cls pWs 1 (some 1)) (.seq (plit "X") (.cls pWs 1 (some 1)))

/-- Pattern `\s*\d{1,2}\s*(?=3 -)` (occupants / special function). -/
def reOcc3 : Pat :=
  .seq (.cls pWs 0 none) (.seq pDig12 (.seq (.cls pWs 0 none) (.look (plit "3 -"))))

/-- Pattern `\d` (number of trailing units). -/
def reDig1 : Pat := .cls pDig 1 (some 1)

/-- Pattern `\s*\d{1,2}\s*(?=\/ NOT APPLICABLE)` (vehicle body type). -/
def reBodyType : Pat :=
  .seq (.cls pWs 0 none)
    (.seq pDig12 (.seq (.cls pWs 0 none) (.look (plit "/ NOT APPLICABLE"))))

/-- Pattern `\d{1,2}\s*(?=1 \- OVERTURN\/ROLLOVER)` (first sequence event). -/
def reSeq1 : Pat :=
  .seq pDig12 (.seq (.cls pWs 0 none) (.look (plit "1 - OVERTURN/ROLLOVER")))

/-- Pattern `(?<=\s3\s)\s*\d{1,2}\s*(?=EQUIPMENT)` (third sequence event). -/
def reSeq3 : Pat :=
  .seq (.lookb (.seq (.cls pWs 1 (some 1)) (.seq (plit "3") (.cls pWs 1 (some 1)))) 3)
    (.seq (.cls pWs 0 none) (.seq pDig12 (.seq (.cls pWs 0 none) (.look (plit "EQUIPMENT")))))

/-- Pattern `(?<=\s4\s)\s*\d{1,2}\s*` (fourth sequence event). -/
def reSeq4 : Pat :=
  .seq (.lookb (.seq (.cls pWs 1 (some 1)) (.seq (plit "4") (.cls pWs 1 (some 1)))) 3)
    (.seq (.cls pWs 0 none) (.seq pDig12 (.cls pWs 0 none)))

/-- Pattern `\s*\d{1,2}\s*(?=FIRST HARMFUL EVENT)`. -/
def reHarm1 : Pat :=
  .seq (.cls pWs 0 none)
    (.seq pDig12 (.seq (.cls pWs 0 none) (.look (plit "FIRST HARMFUL EVENT"))))

/-- Pattern `(?<=FIRST HARMFUL EVENT)\s*\d{1,2}\s*(?=MOST HARMFUL EVENT)`. -/
def reHarm2 : Pat :=
  .seq (plookb "FIRST HARMFUL EVENT")
    (.seq (.cls pWs 0 none)
      (.seq pDig12 (.seq (.cls pWs 0 none) (.look (plit "MOST HARMFUL EVENT")))))

/-- Pattern `\s*X\s*(?=- NO DAMAGE)`. -/
def reDmg0 : Pat :=
  .seq (.cls pWs 0 none)
    (.seq (plit "X") (.seq (.cls pWs 0 none) (.look (plit "- NO DAMAGE"))))

/-- Pattern `(?<=NO DAMAGE \[ 0 \])\s*X\s*(?=\- UNDERCARRIAGE)`. -/
def reDmg14 : Pat :=
  .seq (plookb "NO DAMAGE [ 0 ]")
    (.seq (.cls pWs 0 none)
      (.seq (plit "X") (.seq (.cls pWs 0 none) (.look (plit "- UNDERCARRIAGE")))))

/-- Pattern `(?<=PATHS)\s*X\s*(?=\- TOP)`. -/
def reDmg13 : Pat :=
  .seq (plookb "PATHS")
    (.seq (.cls pWs 0 none)
      (.seq (plit "X") (.seq (.cls pWs 0 none) (.look (plit "- TOP")))))

/-- Pattern `(?<=TOP \[ 13 \])\s*X\s*(?=\- ALL)`. -/
def reDmg15 : Pat :=
  .seq (plookb "TOP [ 13 ]")
    (.seq (.cls pWs 0 none)
      (.seq (plit "X") (.seq (.cls pWs 0 none) (.look (plit "- ALL")))))

/-- Pattern `\sX$`. -/
def reWsXEnd : Pat := .seq (.cls pWs 1 (some 1)) (.seq (plit "X") .eol)

/-- Pattern `(?<=PUSHING VEHICLE)\s*\d{1,2}\s*(?=1-12)` (initial impact). -/
def reImpact : Pat :=
  .seq (plookb "PUSHING VEHICLE")
    (.seq (.cls pWs 0 none)
      (.seq pDig12 (.seq (.cls pWs 0 none) (.look (plit "1-12")))))

/-- Pattern `\d{1,2}\s*(?=1 \- TURN SIGNALS)` (vehicle defects). -/
def reDefects : Pat :=
  .seq pDig12 (.seq (.cls pWs 0 none) (.look (plit "1 - TURN SIGNALS")))

/-- Python `[p.strip() for p in parts if p.strip() and p.strip() != ' ']`
(the second test is vacuous after stripping). -/
def stripParts (parts : List String) : List String :=
  (parts.map pyStrip).filter (fun p => p ≠ "" && p ≠ " ")

/-- `OhioPdfParser._build_vehicle_dict`. -/
def buildVehicleDict (veh : VehDraft) (vehInfo : VehInfoDraft) : BuiltVehicle :=
  { vehicle_unit := veh.vehicle_unit.getD 1
    is_commercial := veh.is_commercial.getD false
    make := veh.make.getD ""
    model := veh.model.getD ""
    year := veh.year.getD 0
    plate_no := veh.plate_no.getD ""
    plate_state := veh.plate_state.getD ""
    vin := veh.vin.getD ""
    policy_no := veh.policy_no.getD ""
    is_towed := veh.is_towed.getD false
    is_hit_and_run := veh.is_hit_and_run.getD false
    vehicle_type := veh.vehicle_type.getD 1
    no_of_trailer := veh.no_of_trailer.getD 0
    color := veh.color.getD ""
    veh_body_type := veh.veh_body_type
    special_function := veh.special_function.getD ""
    is_parked := veh.is_parked.getD false
    vehicle_info := vehInfo
    persons := [] }

/-- Loop state of `_extract_vehicles`. -/
structure VehScan where
  vehicles : List BuiltVehicle := []
  cv : Option VehDraft := none
  ci : Option VehInfoDraft := none
  done : Bool := false
deriving Repr

/-- Truthiness of the optional `current_vehicle` dictionary. -/
def cvTruthy (o : Option VehDraft) : Bool :=
  match o with
  | some d => d.isT
  | none => false

/-- One iteration of the `_extract_vehicles` scan over `self.pure_lines[i]`
(`isColor s` models `webcolors.name_to_hex(s)` succeeding on the lowercased
string; an absent `webcolors` package is `fun _ => false`). -/
def vehStep (isColor : String → Bool) (pureL : List String) (i : Nat)
    (st : VehScan) : VehScan :=
  let line := ln pureL i
  let n := pureL.length
  let cvT := cvTruthy st.cv
  if pyIn "UNIT #" line && pyIn "OWNER NAME: LAST, FIRST, MIDDLE" line &&
     pyIn "SAME AS DRIVER" line && pyIn "OWNER PHONE" line then
    -- save previous vehicle if it exists (the check is `is not None`)
    let vehicles :=
      match st.cv with
      | some d => st.vehicles ++ [buildVehicleDict d (st.ci.getD {})]
      | none => st.vehicles
    let cv : VehDraft := {}
    let ci : VehInfoDraft := {}
    if i + 1 < n then
      let parts := stripParts (reSplit reSplitUnit (ln pureL (i + 1)))
      let (cv, ci) :=
        if 1 ≤ parts.length then
          match pyInt (ln parts 0) with
          | some u => ({ cv with vehicle_unit := some u }, { ci with vehicle_unit := some u })
          | none => (cv, ci)
        else (cv, ci)
      let cv :=
        if 2 ≤ parts.length && ln parts 1 ≠ "," then { cv with owner_name := some (ln parts 1) }
        else cv
      let cv :=
        if 3 ≤ parts.length then { cv with owner_phone := some (ln parts 2) } else cv
      { st with vehicles := vehicles, cv := some cv, ci := some ci }
    else { st with vehicles := vehicles, cv := some cv, ci := some ci }
  else if cvT && pyIn "2 - MINOR DAMAGE" line && pyIn "4 - DISABLING DAMAGE" line then
    match reSearch reDamageSev line with
    | some m => { st with ci := (st.ci.getD {}) |> (fun c => some { c with damage_severity := some (pyStrip m) }) }
    | none => st
  else if cvT && pyIn "OWNER ADDRESS: STREET, CITY, STATE, ZIP" line && pyIn "SAME AS DRIVER" line then
    if i + 1 < n then
      let nextL := ln pureL (i + 1)
      let m :=
        match searchLookGroup (.cls addrCls 0 none) ownerInner1 nextL with
        | some g => some g
        | none => searchLookGroup (.cls addrCls 0 none) ownerInner2 nextL
      match m with
      | some g =>
        if pyStrip g ≠ "" then
          { st with cv := (st.cv.getD {}) |> (fun c => some { c with owner_address := some (pyStrip g) }) }
        else st
      | none => st
    else st
  else if cvT && pyIn "COMMERCIAL CARRIER: NAME, ADDRESS, CITY, STATE, ZIP" line then
    if i + 1 < n then
      let parts := stripParts (reSplit reSplitCarrier (ln pureL (i + 1)))
      { st with cv := (st.cv.getD {}) |> (fun c => some
          { c with carrier_name := some (if 1 ≤ parts.length then ln parts 0 else "NA"),
                   carrier_number := some (if 2 ≤ parts.length then ln parts 1 else "NA") }) }
    else st
  else if cvT && pyIn "LP STATE" line && pyIn "LICENSE PLATE" line && pyIn "VEHICLE IDENTIFICATION" line then
    if i + 1 < n then
      let nextL := ln pureL (i + 1)
      if pyIn "INSURANCE" nextL && pyIn "INSURANCE COMPANY" nextL then
        { st with cv := (st.cv.getD {}) |> (fun c => some
            { c with vin := some "NA", plate_state := some "NA", plate_no := some "NA",
                     year := some 0, make := some "NA" }) }
      else
        let parts := (reSplit reSplitWs2 nextL |>.map pyStrip).filter (fun p => p ≠ "")
        let cv := st.cv.getD {}
        let cv :=
          match reSearch reW17 nextL with
          | some v => { cv with vin := some v }
          | none => cv
        let cv :=
          if 5 ≤ parts.length then
            let cv := { cv with plate_state := some (ln parts 0), plate_no := some (ln parts 1) }
            let cv :=
              match pyInt (ln parts 3) with
              | some y => { cv with year := some y }
              | none => cv
            { cv with make := some (ln parts 4) }
          else if parts.length = 1 then
            if pyIn "UNKNOWN" (ln parts 0) || pyIn "OTHER" (ln parts 0) then
              { cv with make := some (ln parts 0) }
            else cv
          else cv
        { st with cv := some cv }
    else st
  else if cvT && pyIn "INSURANCE" line && pyIn "INSURANCE COMPANY" line && pyIn "INSURANCE POLICY" line then
    if i + 1 < n then
      let parts := (reSplit reSplitWs3 (ln pureL (i + 1)) |>.map pyStrip).filter (fun p => p ≠ "")
      let cv := st.cv.getD {}
      let ci := st.ci.getD {}
      let (cv, ci) :=
        if parts.length = 6 then
          ({ cv with policy_no := some (ln parts 3), color := some (ln parts 4),
                     model := some (ln parts 5) },
           { ci with insurance_verified := some (if ln parts 0 = "X" then "YES" else "NO"),
                     insurance_company := some (ln parts 2) })
        else if parts.length = 3 then
          ({ cv with color := some (ln parts 1), model := some (ln parts 2) }, ci)
        else if parts.length = 2 then
          if isColor (strLower (ln parts 1)) then
            ({ cv with color := some (ln parts 1) }, ci)
          else if pyIn "UNKNOWN" (ln parts 1) || pyIn "OTHER" (ln parts 1) then
            ({ cv with make := some (ln parts 1) }, ci)
          else (cv, ci)
        else if parts.length = 1 then
          if isColor (strLower (ln parts 0)) then
            ({ cv with color := some (ln parts 0) }, ci)
          else if pyIn "UNKNOWN" (ln parts 0) || pyIn "OTHER" (ln parts 0) then
            ({ cv with make := some (ln parts 0) }, ci)
          else (cv, ci)
        else (cv, ci)
      let (cv, ci) :=
        if ci.insurance_verified.isNone then
          ({ cv with policy_no := some "NA" }, { ci with insurance_company := some "NA" })
        else (cv, ci)
      { st with cv := some cv, ci := some ci }
    else st
  else if cvT && pyIn "TOWED BY: COMPANY" line && pyIn "US DOT #" line then
    if i + 2 < n then
      let parts := (reSplit reSplitWs2 (ln pureL (i + 2)) |>.map pyStrip).filter (fun p => p ≠ "")
      let ci := st.ci.getD {}
      let ci :=
        if 3 ≤ parts.length then
          { ci with us_dot := some (if pyIsdigit (ln parts 2) then ln parts 2 else "NA") }
        else ci
      let ci :=
        if parts.length = 4 then { ci with towed_by := some (ln parts 3) }
        else if parts.length = 3 then
          { ci with towed_by := some (if pyIsdigit (ln parts 2) then "NA" else ln parts 2) }
        else { ci with towed_by := some "NA" }
      let cv := st.cv.getD {}
      let cv :=
        if i + 3 < n && pyStarts (pyStrip (ln pureL (i + 3))) "X" then
          { cv with is_commercial := some true }
        else cv
      let cv :=
        { cv with is_towed := some (match ci.towed_by with
            | some v => v ≠ "NA"
            | none => true) }
      { st with cv := some cv, ci := some ci }
    else st
  else if cvT && pyStarts (pyStrip line) "DEVICE" && pyIn "HIT/SKIP UNIT" line then
    let cv := st.cv.getD {}
    let cv :=
      if i + 1 < n && reTest reWsXWs (ln pureL (i + 1)) then
        { cv with is_hit_and_run := some true }
      else cv
    let ci := st.ci.getD {}
    let ci :=
      if i + 3 < n then
        match reSearch reOcc3 (ln pureL (i + 3)) with
        | some m => { ci with no_of_occupants := some ((pyInt (pyStrip m)).getD 0) }
        | none => ci
      else ci
    { st with cv := some cv, ci := some ci }
  else if cvT && pyIn "UNIT TYPE" line && 3 ≤ i && pyIn "(MINIVAN)" (ln pureL (i - 3)) then
    let helper0 := ln (pySplitOn (ln pureL (i - 3)) "(MINIVAN)") 0
    let parts := (reSplit reSplitWs2 helper0 |>.map pyStrip).filter (fun p => p ≠ "")
    if parts.length ≠ 0 then
      match pyInt (ln parts 0) with
      | some v => { st with cv := (st.cv.getD {}) |> (fun c => some { c with vehicle_type := some v }) }
      | none => st
    else st
  else if cvT && pyIn "# OF TRAILING UNITS" line then
    match reSearch reDig1 line with
    | some m => { st with cv := (st.cv.getD {}) |> (fun c => some { c with no_of_trailer := some ((pyInt m).getD 0) }) }
    | none => st
  else if cvT && pyIn "SPECIAL" line && pyIn "SHARING" line then
    let cv := st.cv.getD {}
    let cv :=
      if 1 ≤ i then
        match reSearch reOcc3 (ln pureL (i - 1)) with
        | some m => { cv with special_function := some (pyStrip m) }
        | none => cv
      else cv
    let cv :=
      if i + 5 < n && pyIn "/ NOT APPLICABLE" (ln pureL (i + 5)) then
        match reSearch reBodyType (ln pureL (i + 5)) with
        | some m => { cv with veh_body_type := some ((pyInt (pyStrip m)).getD 0) }
        | none => cv
      else cv
    { st with cv := some cv }
  else if cvT && pyIn "PRE-CRASH" line && i + 2 < n && pyIn "ACTIONS" (ln pureL (i + 2)) then
    if 2 ≤ i then
      let parts := (pySplitWs (ln pureL (i - 2)) |>.map pyStrip).filter (fun p => p ≠ "")
      if 2 ≤ parts.length then
        match pyInt (ln parts 1) with
        | some v => { st with cv := (st.cv.getD {}) |> (fun c => some { c with is_parked := some (v = 10) }) }
        | none => st
      else st
    else st
  else if cvT && pyIn "CONTRIBUTING" line && i + 1 < n && pyIn "CIRCUMSTANCES" (ln pureL (i + 1)) then
    if 2 ≤ i then
      let arr := (reSplit reSplitContrib (ln pureL (i - 2)) |>.map pyStrip).filter (fun p => p ≠ "")
      if arr.length ≠ 0 then
        match pyInt (ln arr 0) with
        | some v => { st with ci := (st.ci.getD {}) |> (fun c => some { c with contributing_circumstance := some v }) }
        | none => st
      else st
    else st
  else if cvT && pyIn "E  V N T S (s)" line then
    let ci := st.ci.getD {}
    let ci :=
      if i + 1 < n then
        match reSearch reSeq1 (ln pureL (i + 1)) with
        | some m => { ci with crash_seq_1st_event := some ((pyInt (pyStrip m)).getD 0) }
        | none => ci
      else ci
    let ci :=
      if i + 6 < n then
        match reSearch pDig12 (ln pureL (i + 6)) with
        | some m => { ci with crash_seq_2nd_event := some ((pyInt (pyStrip m)).getD 0) }
        | none => ci
      else ci
    let ci :=
      if i + 12 < n then
        match reSearch reSeq3 (ln pureL (i + 12)) with
        | some m => { ci with crash_seq_3rd_event := some ((pyInt (pyStrip m)).getD 0) }
        | none => ci
      else ci
    let ci :=
      if i + 16 < n then
        match reSearch reSeq4 (ln pureL (i + 16)) with
        | some m => { ci with crash_seq_4th_event := some ((pyInt (pyStrip m)).getD 0) }
        | none => ci
      else ci
    { st with ci := some ci }
  else if cvT && pyIn "FIRST HARMFUL EVENT" line && pyIn "MOST HARMFUL EVENT" line then
    let ci := st.ci.getD {}
    let ci :=
      match reSearch reHarm1 line with
      | some m => { ci with harmful_event := some ((pyInt (pyStrip m)).getD 0) }
      | none => ci
    let ci :=
      match reSearch reHarm2 line with
      | some m => { ci with most_harmful_event := some ((pyInt (pyStrip m)).getD 0) }
      | none => ci
    { st with
        vehicles := st.vehicles ++ [buildVehicleDict (st.cv.getD {}) ci],
        cv := none, ci := none }
  else if cvT && pyIn "NO DAMAGE [ 0 ]" line && 1 ≤ i && pyIn "DEFECTS" (ln pureL (i - 1)) then
    let v :=
      if reTest reDmg0 line then "0"
      else if reTest reDmg14 line then "14"
      else if i + 3 < n && reTest reDmg13 (ln pureL (i + 3)) then "13"
      else if i + 3 < n && reTest reDmg15 (ln pureL (i + 3)) then "15"
      else if i + 7 < n && reTest reWsXEnd (ln pureL (i + 7)) then "16"
      else "NA"
    { st with ci := (st.ci.getD {}) |> (fun c => some { c with damaged_area := some v }) }
  else if cvT && pyIn "INITIAL POINT OF CONTACT" line && i + 2 < n && pyIn "0 - NO DAMAGE" (ln pureL (i + 2)) then
    if i + 4 < n then
      match reSearch reImpact (ln pureL (i + 4)) with
      | some m => { st with ci := (st.ci.getD {}) |> (fun c => some { c with initial_impact := some (pyStrip m) }) }
      | none => st
    else st
  else if cvT && pyIn "VEHICLE" line && i + 2 < n && pyIn "DEFECTS" (ln pureL (i + 2)) &&
          2 ≤ i && pyIn "1 - TURN SIGNALS" (ln pureL (i - 2)) then
    match reSearch reDefects (ln pureL (i - 2)) with
    | some m => { st with ci := (st.ci.getD {}) |> (fun c => some { c with vehicle_defects := some (pyStrip m) }) }
    | none => st
  else if cvT && pyIn "DATE OF BIRTH" line then
    { st with
        vehicles := st.vehicles ++ [buildVehicleDict (st.cv.getD {}) (st.ci.getD {})],
        cv := none, ci := none, done := true }
  else st

/-- `OhioPdfParser._extract_vehicles` (the scan stops at the
`DATE OF BIRTH` `break`; a truthy leftover draft is flushed at the end). -/
def extractVehicles (isColor : String → Bool) (pureL : List String) :
    List BuiltVehicle :=
  let st :=
    (List.range pureL.length).foldl
      (fun st i => if st.done then st else vehStep isColor pureL i st)
      {}
  match st.cv with
  | some d => if d.isT then st.vehicles ++ [buildVehicleDict d (st.ci.getD {})] else st.vehicles
  | none => st.vehicles

/-! ## `OhioPdfParser._extract_persons` -/

/-- Pattern `^\d{1,2}`. -/
def reBolDig12 : Pat := .seq .bol pDig12

/-- Pattern `\d{2}/\d{2}/\d{4}` (name-line date test). -/
def reDate224 : Pat :=
  .seq (.cls pDig 2 (some 2))
    (.seq (plit "/") (.seq (.cls pDig 2 (some 2)) (.seq (plit "/") (.cls pDig 4 (some 4)))))

/-- Pattern `\d{1,2}\/\d{1,2}\/\d{4}` (date of birth). -/
def reDate124 : Pat :=
  .seq pDig12 (.seq (plit "/") (.seq pDig12 (.seq (plit "/") (.cls pDig 4 (some 4)))))

/-- Loop state of `_extract_persons`. -/
structure PersonScan where
  persons : List PersonsEntry := []
  cp : Option PersonDraft := none
  cpi : PersonInfoDraft := {}
  cdi : DriverDraft := {}
  person_index : Int := 0
deriving Repr

/-- Flush of the previous person at a section anchor (and at scan end):
bump the index, stamp it on all three dictionaries, and append. -/
def personFlush (st : PersonScan) : PersonScan :=
  match st.cp with
  | some p =>
    let idx := st.person_index + 1
    { st with
        person_index := idx,
        persons := st.persons ++
          [{ basic := { p with person_index := some idx },
             info := { st.cpi with person_index := some idx },
             driver := { st.cdi with person_index := some idx } }] }
  | none => st

/-- Fields resolved inside the `INJURIES` anchor branch (injuries, EMS fields)
on the fresh dictionaries. -/
def personAnchorInfo (raw : List String) (i : Nat) : PersonInfoDraft :=
  let n := raw.length
  let inf : PersonInfoDraft := {}
  let inf :=
    if i + 2 < n && pyIn "INJURED" (ln raw (i + 2)) then
      { inf with injuries := some (ln raw (i + 1)) }
    else { inf with injuries := some "0" }
  let inf :=
    if i + 2 < n && pyIn "BY" (ln raw (i + 2)) then
      match reSearch pDig12 (ln raw (i + 2)) with
      | some m => { inf with injured_taken_by_ems := some (pyStrip m) }
      | none => inf
    else if i + 4 < n && pyIn "BY" (ln raw (i + 4)) then
      match reSearch pDig12 (ln raw (i + 4)) with
      | some m => { inf with injured_taken_by_ems := some (pyStrip m) }
      | none => inf
    else inf
  let inf :=
    if i + 5 < n && pyIn "EMS AGENCY (NAME)" (ln raw (i + 5)) &&
       i + 7 < n && pyIn "INJURED TAKEN TO: MEDICAL FACILITY" (ln raw (i + 7)) then
      { inf with name_of_ems := some (pyStrip (ln raw (i + 6))) }
    else if i + 3 < n && pyIn "EMS AGENCY (NAME)" (ln raw (i + 3)) &&
            i + 5 < n && pyIn "INJURED TAKEN TO: MEDICAL FACILITY" (ln raw (i + 5)) then
      { inf with name_of_ems := some (pyStrip (ln raw (i + 4))) }
    else if i + 5 < n && pyIn "EMS AGENCY (NAME) INJURED TAKEN TO: MEDICAL FACILITY" (ln raw (i + 5)) then
      { inf with name_of_ems := some "NA" }
    else { inf with name_of_ems := some "NA" }
  let inf :=
    if i + 7 < n && pyIn "INJURED TAKEN TO: MEDICAL FACILITY" (ln raw (i + 7)) &&
       i + 9 < n && pyIn "SAFETY EQUIPMENT" (ln raw (i + 9)) then
      { inf with injured_taken_to := some (pyStrip (ln raw (i + 8))) }
    else if i + 5 < n && pyIn "INJURED TAKEN TO: MEDICAL FACILITY" (ln raw (i + 5)) &&
            i + 7 < n && pyIn "SAFETY EQUIPMENT" (ln raw (i + 7)) then
      { inf with injured_taken_to := some (pyStrip (ln raw (i + 6))) }
    else if i + 3 < n && pyIn "INJURED TAKEN TO: MEDICAL FACILITY" (ln raw (i + 3)) &&
            i + 5 < n && pyIn "SAFETY EQUIPMENT" (ln raw (i + 5)) then
      { inf with injured_taken_to := some (pyStrip (ln raw (i + 4))) }
    else { inf with injured_taken_to := some "NA" }
  inf

/-- The `UNIT  #` person branch (unit number, name, address, date of birth,
age, gender, phone). -/
def personUnitBranch (raw : List String) (i : Nat) (st : PersonScan) : PersonScan :=
  let n := raw.length
  let cp := st.cp.getD {}
  let (cp, cpi, cdi) :=
    if i + 1 < n then
      match pyInt (pyStrip (ln raw (i + 1))) with
      | some v =>
        ({ cp with vehicle_number := some v },
         { st.cpi with vehicle_unit := some v },
         { st.cdi with vehicle_unit := some v })
      | none => (cp, st.cpi, st.cdi)
    else (cp, st.cpi, st.cdi)
  let cp :=
    if i + 3 < n then
      let pnl := ln raw (i + 3)
      if !pyIn "CONTACT PHONE" pnl && !reTest reDate224 pnl then
        if !pyIn "UNKNOWN" pnl then
          let names := pySplitOn pnl ","
          { cp with
              first_name := some (if 1 ≤ names.length then pyStrip (ln names 0) else "NA"),
              last_name := some (if 2 ≤ names.length then pyStrip (ln names 1) else "NA"),
              middle_name := some (if names.length = 3 then pyStrip (ln names 2) else "NA") }
        else
          { cp with first_name := some "UNKNOWN", last_name := some "UNKNOWN",
                    middle_name := some "UNKNOWN" }
      else
        { cp with first_name := some "NA", last_name := some "NA", middle_name := some "NA" }
    else cp
  let cp :=
    if 2 ≤ i && pyIn "ADDRESS: STREET, CITY, STATE, ZIP" (ln raw (i - 2)) then
      let pa := ln raw (i - 1)
      if pa ≠ "NA" && !pyIn "UNKNOWN" pa then
        let ap := pySplitOn pa ","
        { cp with
            address := some (if 3 ≤ ap.length then pyStrip (ln ap 0) else "NA"),
            city := some (if 3 ≤ ap.length then pyStrip (ln ap 1)
              else if ap.length = 2 then pyStrip (ln ap 0) else "NA"),
            state := some (if 3 ≤ ap.length then pyStrip (ln ap 2)
              else if ap.length = 2 && (pyStrip (ln ap 1)).toList.length = 2 then pyStrip (ln ap 1)
              else "NA"),
            zip := some (if ap.length = 4 then pyStrip (ln ap 3) else "NA") }
      else
        { cp with address := some "NA", city := some "NA", state := some "NA", zip := some "NA" }
    else cp
  let cpi :=
    if i + 3 < n then
      let m :=
        match reSearch reDate124 (ln raw (i + 3)) with
        | some m => some m
        | none =>
          match (if i + 4 < n then reSearch reDate124 (ln raw (i + 4)) else none) with
          | some m => some m
          | none => if i + 5 < n then reSearch reDate124 (ln raw (i + 5)) else none
      { cpi with date_of_birth := some (m.getD "NA") }
    else cpi
  let cpi :=
    if i + 4 < n then
      if pyIn "AGE GENDER" (ln raw (i + 4)) then
        { cpi with age := some 0 }
      else if (if i + 5 < n then
                 pyIn "AGE" (ln raw (i + 4)) && !pyIn "GENDER" (ln raw (i + 5))
               else false) then
        match pyInt (pyStrip (ln raw (i + 5))) with
        | some v => { cpi with age := some v }
        | none => cpi
      else if (if i + 7 < n then
                 i + 6 < n && pyIn "AGE" (ln raw (i + 6)) && !pyIn "GENDER" (ln raw (i + 7))
               else false) then
        match pyInt (pyStrip (ln raw (i + 7))) with
        | some v => { cpi with age := some v }
        | none => cpi
      else cpi
    else cpi
  let cpi :=
    if (if i + 7 < n then
          i + 6 < n && pyIn "GENDER" (ln raw (i + 6)) && !pyIn "CONTACT PHONE" (ln raw (i + 7))
        else false) then
      { cpi with gender := some (if i + 7 < n then pyStrip (ln raw (i + 7)) else "") }
    else if (if i + 9 < n then
               i + 8 < n && pyIn "GENDER" (ln raw (i + 8)) && !pyIn "CONTACT PHONE" (ln raw (i + 9))
             else false) then
      { cpi with gender := some (if i + 9 < n then pyStrip (ln raw (i + 9)) else "") }
    else cpi
  let (cp, cdi) :=
    if i + 10 < n && pyIn "CONTACT PHONE" (ln raw (i + 10)) then
      if i + 11 < n && !pyIn "MOTORIST" (ln raw (i + 11)) && !pyIn "OCCUPANT" (ln raw (i + 11)) then
        ({ cp with phone_number := some (ln raw (i + 11)) },
         { cdi with contact_number := some (ln raw (i + 11)) })
      else
        ({ cp with phone_number := some "NA" }, { cdi with contact_number := some "NA" })
    else (cp, cdi)
  { st with cp := some cp, cpi := cpi, cdi := cdi }

/-- One iteration of the `_extract_persons` scan over `self.raw_lines[i]`. -/
def personStep (raw : List String) (i : Nat) (st : PersonScan) : PersonScan :=
  let line := ln raw i
  let n := raw.length
  let cpT := (st.cp.map PersonDraft.isT).getD false
  if pyIn "INJURIES" line &&
     (pyIn "INJURED" line || (i + 2 < n && pyIn "INJURED" (ln raw (i + 2)))) then
    let st := personFlush st
    { st with cp := some {}, cpi := personAnchorInfo raw i, cdi := {} }
  else if cpT && pyIn "SEATING" line && i + 1 < n && pyIn "POSITION" (ln raw (i + 1)) then
    if i + 3 < n && pyIn "AIR BAG USAGE" (ln raw (i + 3)) then
      match reSearch reBolDig12 (ln raw (i + 2)) with
      | some m =>
        let pos := (pyInt (pyStrip m)).getD 0
        { st with cpi := { st.cpi with seating_position := some pos },
                  cp := (st.cp.getD {}) |> (fun p => some { p with is_same_as_driver := some (pos = 1) }) }
      | none => st
    else st
  else if cpT && pyIn "AIR BAG USAGE" line then
    if pyIn "EJECTION" line || (i + 1 < n && pyIn "EJECTION" (ln raw (i + 1))) then st
    else if i + 1 < n then
      match pyInt (pyStrip (ln raw (i + 1))) with
      | some v =>
        { st with cpi := { st.cpi with air_bag_status := some v, air_bag_deployed := some v } }
      | none => st
    else st
  else if cpT && pyIn "EJECTION" line then
    if pyIn "TRAPPED" line || (i + 1 < n && pyIn "TRAPPED" (ln raw (i + 1))) then st
    else if i + 1 < n then
      match reSearch reBolDig12 (ln raw (i + 1)) with
      | some m => { st with cpi := { st.cpi with ejection := some ((pyInt (pyStrip m)).getD 0) } }
      | none => st
    else st
  else if cpT && pyIn "TRAPPED" line &&
          ((i + 1 < n && pyIn "ADDRESS: STREET, CITY, STATE, ZIP" (ln raw (i + 1))) ||
           (i + 2 < n && pyIn "ADDRESS: STREET, CITY, STATE, ZIP" (ln raw (i + 2)))) then
    if i + 2 < n && pyIn "ADDRESS" (ln raw (i + 2)) then
      match pyInt (pyStrip (ln raw (i + 1))) with
      | some v => { st with cpi := { st.cpi with trapped := some v } }
      | none => st
    else st
  else if cpT && pyIn "UNIT  #" line && i + 2 < n &&
          pyIn "NAME: LAST, FIRST, MIDDLE" (ln raw (i + 2)) then
    personUnitBranch raw i st
  else if cpT && pyIn "OL STATE" line &&
          ((i + 4 < n && pyIn "OPERATOR LICENSE NUMBER" (ln raw (i + 4))) ||
           (i + 3 < n && pyIn "OPERATOR LICENSE NUMBER" (ln raw (i + 3)))) then
    let cdi :=
      if i + 1 < n && !pyIn "OL CLASS" (ln raw (i + 1)) then
        { st.cdi with dl_state := some (pyStrip (ln raw (i + 1))) }
      else { st.cdi with dl_state := some "NA" }
    let cdi :=
      if i + 2 < n && pyIn "OL CLASS" (ln raw (i + 2)) &&
         i + 4 < n && pyIn "OPERATOR LICENSE NUMBER" (ln raw (i + 4)) then
        { cdi with ol_class := some (pyStrip (ln raw (i + 3))) }
      else if i + 1 < n && pyIn "OL CLASS" (ln raw (i + 1)) &&
              i + 3 < n && pyIn "OPERATOR LICENSE NUMBER" (ln raw (i + 3)) then
        { cdi with ol_class := some (pyStrip (ln raw (i + 2))) }
      else { cdi with ol_class := some "NA" }
    { st with cdi := cdi }
  else if cpT && pyIn "RESTRICTION SELECT UP TO 3" line then
    let cdi :=
      if 2 ≤ i && pyIn "ENDORSEMENT" (ln raw (i - 2)) then
        { st.cdi with endorsement := some (ln raw (i - 1)) }
      else { st.cdi with endorsement := some "NA" }
    let cdi :=
      if i + 2 < n && pyIn "DRIVER" (ln raw (i + 2)) then
        { cdi with restriction := some (ln raw (i + 1)) }
      else { cdi with restriction := some "NA" }
    let cdi :=
      if i + 2 < n && pyIn "BY" (ln raw (i + 2)) then
        let parts := pySplitOn (pyStrip (ln raw (i + 2))) " "
        { cdi with driver_distracted_by := some (if parts.length = 2 then ln parts 1 else "NA") }
      else if i + 3 < n && pyIn "BY" (ln raw (i + 3)) then
        let parts := pySplitOn (pyStrip (ln raw (i + 3))) " "
        { cdi with driver_distracted_by := some (if parts.length = 2 then ln parts 1 else "NA") }
      else if i + 4 < n && pyIn "BY" (ln raw (i + 4)) then
        let parts := pySplitOn (pyStrip (ln raw (i + 4))) " "
        { cdi with driver_distracted_by := some (if parts.length = 2 then ln parts 1 else "NA") }
      else { cdi with driver_distracted_by := some "NA" }
    { st with cdi := cdi }
  else if cpT && pyIn "OPERATOR LICENSE NUMBER" line then
    let cdi :=
      if pyIn "OFFENSE CHARGED" line then
        { st.cdi with driving_licence := some "NA" }
      else if i + 1 < n then
        { st.cdi with driving_licence := some (pyStrip (ln raw (i + 1))) }
      else st.cdi
    let cdi :=
      if pyIn "OFFENSE CHARGED" line && !pyIn "LOCAL" line then
        if i + 1 < n then { cdi with offense_charged := some (ln raw (i + 1)) } else cdi
      else if i + 2 < n && pyIn "OFFENSE CHARGED" (ln raw (i + 2)) &&
              i + 4 < n && pyIn "LOCAL" (ln raw (i + 4)) then
        { cdi with offense_charged := some (ln raw (i + 3)) }
      else { cdi with offense_charged := some "NA" }
    { st with cdi := cdi }
  else if cpT && pyIn "OFFENSE DESCRIPTION" line then
    let cdi :=
      if pyIn "CITATION NUMBER" line then
        { st.cdi with offense_description := some "NA" }
      else if i + 1 < n then
        { st.cdi with offense_description := some (ln raw (i + 1)) }
      else st.cdi
    let cdi :=
      if pyIn "CITATION NUMBER" line && i + 1 < n && !pyIn "ENDORSEMENT" (ln raw (i + 1)) then
        { cdi with citation_number := some (ln raw (i + 1)) }
      else if i + 2 < n && pyIn "CITATION NUMBER" (ln raw (i + 2)) &&
              i + 3 < n && !pyIn "ENDORSEMENT" (ln raw (i + 3)) then
        { cdi with citation_number := some (ln raw (i + 3)) }
      else { cdi with citation_number := some "NA" }
    { st with cdi := cdi }
  else if cpT && pyIn "ALCOHOL / DRUG SUSPECTED" line then
    if i + 1 < n then
      let cdi :=
        if pyIn "X" (ln raw (i + 1)) && !pyIn "ALCOHOL" (ln raw (i + 1)) then
          { st.cdi with alcohol_drug_suspected := some "Other Drug" }
        else if pyIn "X ALCOHOL" (ln raw (i + 1)) then
          { st.cdi with alcohol_drug_suspected := some "Alcohol" }
        else if i + 3 < n && pyIn "X MARIJUANA" (ln raw (i + 3)) then
          { st.cdi with alcohol_drug_suspected := some "Marijuana" }
        else { st.cdi with alcohol_drug_suspected := some "NA" }
      { st with cdi := cdi }
    else st
  else if cpT && pyIn "ALCOHOL TEST DRUG TEST(S)" line then
    let cp :=
      if 2 ≤ i && pyIn "CONDITION" (ln raw (i - 2)) then
        { st.cp.getD {} with person_condition := some (ln raw (i - 1)) }
      else { st.cp.getD {} with person_condition := some "NA" }
    let cdi :=
      if i + 1 < n && pyIn "STATUS TYPE VALUE" (ln raw (i + 1)) then
        { st.cdi with alcohol_test_status := some "NA", alcohol_test_type := some "NA",
                      alcohol_test_value := some "NA" }
      else
        let cdi :=
          if i + 1 < n && pyIn "STATUS" (ln raw (i + 1)) &&
             i + 3 < n && pyIn "TYPE" (ln raw (i + 3)) then
            { st.cdi with alcohol_test_status := some (pyStrip (ln raw (i + 2))) }
          else { st.cdi with alcohol_test_status := some "NA" }
        let cdi :=
          if i + 3 < n && pyIn "TYPE" (ln raw (i + 3)) &&
             i + 5 < n && pyIn "VALUE" (ln raw (i + 5)) then
            { cdi with alcohol_test_type := some (ln raw (i + 4)) }
          else { cdi with alcohol_test_type := some "NA" }
        let cdi :=
          if i + 5 < n && pyIn "VALUE" (ln raw (i + 5)) &&
             i + 7 < n && pyIn "STATUS" (ln raw (i + 7)) then
            let v := pyStrip (ln raw (i + 6))
            { cdi with alcohol_test_value := some (if v ≠ "." then v else "NA") }
          else { cdi with alcohol_test_value := some "NA" }
        cdi
    { st with cp := some cp, cdi := cdi }
  else if cpT && pyIn "TYPE RESULTS SELECT UP TO 4" line then
    if pyIn "STATUS TYPE RESULTS SELECT UP TO 4" line then
      { st with cdi := { st.cdi with drug_test_status := some "NA", drug_test_type := some "NA",
                                     drug_test_value := some "NA" } }
    else
      if 1 ≤ i then
        let arr := (pySplitWs (pyStrip (ln raw (i - 1)))).filter (fun s => pyStrip s ≠ "")
        let cdi :=
          if arr.length = 2 then
            { st.cdi with drug_test_status := some (pyStrip (ln arr 0)),
                          drug_test_type := some (pyStrip (ln arr 1)),
                          drug_test_value := some "NA" }
          else if arr.length = 1 then
            { st.cdi with drug_test_status := some (pyStrip (ln arr 0)),
                          drug_test_type := some "NA", drug_test_value := some "NA" }
          else
            { st.cdi with drug_test_status := some "NA", drug_test_type := some "NA",
                          drug_test_value := some "NA" }
        { st with cdi := cdi }
      else st
  else st

/-- `OhioPdfParser._extract_persons` (scan plus the final flush). -/
def extractPersons (raw : List String) : List PersonsEntry :=
  (personFlush
    ((List.range raw.length).foldl (fun st i => personStep raw i st) {})).persons

/-! ## `OhioPdfParser._map_persons_to_vehicles` and `_build_final_json` -/

/-- Stringify an optional integer the way `str(d.get(key, ""))` does when the
stored value is an `int` and the default is `""`. -/
def optIntStr (o : Option Int) : String :=
  match o with
  | some n => toString n
  | none => ""

/-- The `person_json` dictionary built from one extracted person. -/
def personJsonOf (pb : PersonDraft) (pinf : PersonInfoDraft) (di : DriverDraft) :
    PersonJson :=
  { person_type := ""
    first_name := pb.first_name.getD ""
    middle_name := pb.middle_name.getD ""
    last_name := pb.last_name.getD ""
    same_as_driver := if pb.is_same_as_driver.getD false then "1" else "0"
    address_block :=
      { address_line1 := pb.address.getD ""
        address_city := pb.city.getD ""
        address_state := pb.state.getD ""
        address_zip := pb.zip.getD "" }
    seating_position := optIntStr pinf.seating_position
    date_of_birth := pinf.date_of_birth.getD ""
    gender := pinf.gender.getD ""
    alcohol_or_drug_involved := ""
    ethnicity := ""
    occupant := ""
    airbag_deployed := optIntStr pinf.air_bag_deployed
    airbag_status := optIntStr pinf.air_bag_status
    trapped := optIntStr pinf.trapped
    ejection := optIntStr pinf.ejection
    injury := pinf.injuries.getD ""
    ems_name := pinf.name_of_ems.getD ""
    injured_taken_by_ems := pinf.injured_taken_by_ems.getD ""
    age := optIntStr pinf.age
    injured_taken_to := pinf.injured_taken_to.getD ""
    driver_info_id := ""
    alcohol_test_status := di.alcohol_test_status.getD ""
    alcohol_test_type := di.alcohol_test_type.getD ""
    alcohol_test_value := di.alcohol_test_value.getD ""
    drug_test_status := di.drug_test_status.getD ""
    drug_test_type := di.drug_test_type.getD ""
    drug_test_value := di.drug_test_value.getD ""
    offense_charged := di.offense_charged.getD ""
    local_code := ""
    offense_description := di.offense_description.getD ""
    citation_number := di.citation_number.getD ""
    contact_number := di.contact_number.getD ""
    ol_class := di.ol_class.getD ""
    endorsement := di.endorsement.getD ""
    restriction := di.restriction.getD ""
    driver_distracted_by := di.driver_distracted_by.getD ""
    driving_license := di.driving_licence.getD ""
    dl_state := di.dl_state.getD ""
    alcohol_or_drug_suspected := di.alcohol_drug_suspected.getD "" }

/-- Append a person record to the first vehicle whose unit matches; a person
matching no vehicle disappears (the source has no `else` and no log call). -/
def attachFirst (u : Int) (pj : PersonJson) : List BuiltVehicle → List BuiltVehicle
  | [] => []
  | v :: vs =>
    if v.vehicle_unit = u then { v with persons := v.persons ++ [pj] } :: vs
    else v :: attachFirst u pj vs

/-- `OhioPdfParser._map_persons_to_vehicles`: each person is routed by
`person_basic.get("vehicle_number", 1)`. -/
def mapPersonsToVehicles (vehicles : List BuiltVehicle) (persons : List PersonsEntry) :
    List BuiltVehicle :=
  persons.foldl
    (fun vs pd =>
      attachFirst (pd.basic.vehicle_number.getD 1)
        (personJsonOf pd.basic pd.info pd.driver) vs)
    vehicles

/-! ## Date normalization (`datetime.strptime(…, "%m/%d/%Y")` then
`strftime("%Y-%m-%d")`) -/

/-- Month of `strptime`'s `%m` regex `1[0-2]|0[1-9]|[1-9]`, with the rest of
the input.  Longest-alternative-first needs no backtracking here: when a
two-digit alternative matches but the overall parse later fails at the
following literal `/`, the one-digit alternative fails there too, because the
second digit can never equal `/`. -/
def monthParse : List Char → Option (Nat × List Char)
  | c1 :: c2 :: rest =>
    if c1 = '1' && ('0' = c2 || c2 = '1' || c2 = '2') then
      some (10 + (c2.toNat - 48), rest)
    else if c1 = '0' && c2.isDigit && c2 ≠ '0' then some (c2.toNat - 48, rest)
    else if c1.isDigit && c1 ≠ '0' then some (c1.toNat - 48, c2 :: rest)
    else none
  | [c] => if c.isDigit && c ≠ '0' then some (c.toNat - 48, []) else none
  | [] => none

/-- Day of `strptime`'s `%d` regex `3[01]|[12]\d|0[1-9]|[1-9]` (same
backtracking remark as for the month). -/
def dayParse : List Char → Option (Nat × List Char)
  | c1 :: c2 :: rest =>
    if c1 = '3' && (c2 = '0' || c2 = '1') then some (30 + (c2.toNat - 48), rest)
    else if (c1 = '1' || c1 = '2') && c2.isDigit then
      some ((c1.toNat - 48) * 10 + (c2.toNat - 48), rest)
    else if c1 = '0' && c2.isDigit && c2 ≠ '0' then some (c2.toNat - 48, rest)
    else if c1.isDigit && c1 ≠ '0' then some (c1.toNat - 48, c2 :: rest)
    else none
  | [c] => if c.isDigit && c ≠ '0' then some (c.toNat - 48, []) else none
  | [] => none

/-- Year of `strptime`'s `%Y` regex `\d\d\d\d`, which must consume the whole
remaining input (`strptime` rejects unconverted trailing data). -/
def yearParse : List Char → Option Nat
  | [a, b, c, d] =>
    if a.isDigit && b.isDigit && c.isDigit && d.isDigit then
      some ((a.toNat - 48) * 1000 + (b.toNat - 48) * 100 +
            (c.toNat - 48) * 10 + (d.toNat - 48))
    else none
  | _ => none

/-- Gregorian leap year (as `datetime` uses). -/
def isLeap (y : Nat) : Bool := y % 4 = 0 && (y % 100 ≠ 0 || y % 400 = 0)

/-- Days in a month (as `datetime` validates). -/
def daysInMonth (y m : Nat) : Nat :=
  if m = 2 then (if isLeap y then 29 else 28)
  else if m = 4 || m = 6 || m = 9 || m = 11 then 30
  else 31

/-- `datetime.strptime(s, "%m/%d/%Y")`: month, slash, day, slash, a
four-digit year consuming the rest, then the `datetime` constructor's
calendar validation (`MINYEAR = 1`; the day lower bound 1 is enforced by the
regex). -/
def pyStrptimeMDY (s : String) : Option (Nat × Nat × Nat) :=
  match monthParse s.toList with
  | some (m, c1 :: r1) =>
    if c1 = '/' then
      match dayParse r1 with
      | some (d, c2 :: r2) =>
        if c2 = '/' then
          match yearParse r2 with
          | some y => if 1 ≤ y && d ≤ daysInMonth y m then some (m, d, y) else none
          | none => none
        else none
      | _ => none
    else none
  | _ => none

/-- Decimal digit character. -/
def digCh (n : Nat) : Char := Char.ofNat (48 + n)

/-- Two-digit zero-padded decimal print (`strftime`'s `%m` / `%d`; months and
days are below 100). -/
def fmt2 (n : Nat) : String := String.mk [digCh (n / 10 % 10), digCh (n % 10)]

/-- Four-digit zero-padded decimal print (`strftime`'s `%Y` on the
four-digit years `strptime` accepts; `%Y` padding below 1000 is
platform-dependent in CPython and modelled as padded). -/
def fmt4 (n : Nat) : String :=
  String.mk [digCh (n / 1000 % 10), digCh (n / 100 % 10), digCh (n / 10 % 10), digCh (n % 10)]

/-- The date normalization of `_build_final_json` (src/utils/pdf_parser.py
lines 963-970): first whitespace token of a truthy date string through
`strptime`/`strftime`, empty on any failure (the bare `except` also absorbs
the index error of `.split()[0]` on an all-whitespace string). -/
def normalizeCrashDate (s : String) : String :=
  if s ≠ "" then
    match (pySplitWs s).head? with
    | some tok =>
      (match pyStrptimeMDY tok with
       | some (m, d, y) => fmt4 y ++ "-" ++ fmt2 m ++ "-" ++ fmt2 d
       | none => "")
    | none => ""
  else ""

/-- Per-vehicle output record of `_build_final_json` (the body of its
`for veh in vehicles` loop). -/
def buildVehicleJson (veh : BuiltVehicle) : VehicleJson :=
  { vehicle_unit := toString veh.vehicle_unit
    is_commercial := if veh.is_commercial then "1" else "0"
    make := " " ++ veh.make
    model := veh.model
    vehicle_year := toString veh.year
    plate_number := " " ++ veh.plate_no
    plate_state := " " ++ veh.plate_state
    plate_year := ""
    vin := veh.vin
    policy := veh.policy_no
    is_driven := ""
    is_left_at_scene := ""
    is_towed := if veh.is_towed then "1" else "0"
    is_impounded := ""
    is_disabled := ""
    is_parked := if veh.is_parked then "1" else "0"
    is_pedestrian := ""
    is_pedal_cyclist := ""
    is_hit_and_run := if veh.is_hit_and_run then "1" else "0"
    vehicle_used := ""
    vehicle_type := toString veh.vehicle_type
    trailer_or_carrier_count := toString veh.no_of_trailer
    color := veh.color
    vehicle_body_type := optIntStr veh.veh_body_type
    vehicle_travel_direction := ""
    vehicle_details :=
      { crash_seq_1st_event := optIntStr veh.vehicle_info.crash_seq_1st_event
        crash_seq_2nd_event := optIntStr veh.vehicle_info.crash_seq_2nd_event
        crash_seq_3rd_event := optIntStr veh.vehicle_info.crash_seq_3rd_event
        crash_seq_4th_event := optIntStr veh.vehicle_info.crash_seq_4th_event
        harmful_event := optIntStr veh.vehicle_info.harmful_event
        authorized_speed := ""
        estimated_original_speed := ""
        estimated_impact_speed := ""
        tad := ""
        estimated_damage := ""
        most_harmful_event := optIntStr veh.vehicle_info.most_harmful_event
        insurance_company := veh.vehicle_info.insurance_company.getD ""
        insurance_verified := veh.vehicle_info.insurance_verified.getD ""
        us_dot := veh.vehicle_info.us_dot.getD ""
        towed_by := veh.vehicle_info.towed_by.getD ""
        occupant_count := optIntStr veh.vehicle_info.no_of_occupants
        initial_impact := veh.vehicle_info.initial_impact.getD ""
        contributing_circumstance := optIntStr veh.vehicle_info.contributing_circumstance
        damage_severity := veh.vehicle_info.damage_severity.getD ""
        damaged_area := veh.vehicle_info.damaged_area.getD ""
        vehicle_defects := veh.vehicle_info.vehicle_defects.getD ""
        overweight_permit := "" }
    persons := veh.persons }

/-- `OhioPdfParser._build_final_json`. -/
def buildFinalJson (pdfPath : String) (crash : CrashInfo) (caseI : CaseInfo)
    (vehicles : List BuiltVehicle) : FinalJson :=
  { incident_number := crash.case_number
    report_number := crash.report_number
    department := crash.department
    state_code := ""
    state_abbreviation := "OH"
    state_name := "OHIO"
    county_code := ""
    county := crash.county
    municipality_code := crash.municipality_code
    municipality := crash.municipality_code
    crash_location := crash.location
    crash_type_l1 := ""
    crash_type_l2 := ""
    date_of_crash := normalizeCrashDate crash.date_of_crash
    total_killed := ""
    total_injured := ""
    total_vehicles := toString crash.no_of_vehicles
    case_file_s3_path := ""
    s3_bucket_name := ""
    s3_access_key := ""
    s3_secret_key := ""
    pdf_file_path := pdfPath
    case_detail :=
      [{ local_information := ""
         locality := caseI.locality
         location := "NA"
         route_type := caseI.route_type
         route_number := caseI.route_number
         route_pfx := caseI.route_pfx
         lane_speed_limit_1 := ""
         lane_speed_limit_2 := ""
         crash_severity := toString caseI.crash_severity }]
    vehicles := vehicles.map buildVehicleJson }

/-! ## `OhioPdfParser.parse` -/

/-- The Line Model applied to one page text: split on newlines and keep the
lines whose `strip()` is nonempty (unstripped). -/
def normLines (t : String) : List String :=
  (pySplitOn t "\n").filter (fun l => pyStrip l ≠ "")

/-- `OhioPdfParser.parse`: build both line streams, fail when no raw line was
extracted, otherwise run the extraction pipeline and assemble the record. -/
def ohioParse (isColor : String → Bool) (pdfPath : String) (pages : List PdfPage) :
    Option FinalJson :=
  let raw := (pages.map (fun p => normLines p.rawText)).flatten
  let pureL := (pages.map (fun p => normLines p.pureText)).flatten
  if raw.isEmpty then none
  else
    let crash := extractCrashBasicInfo raw
    let caseI := extractCaseInfo raw
    let vehicles := extractVehicles isColor pureL
    let persons := extractPersons raw
    let vehicles2 := mapPersonsToVehicles vehicles persons
    some (buildFinalJson pdfPath crash caseI vehicles2)

/-! ## `src/extract_crash_pdf.py` (the parts the claims touch) -/

/-- Collapse every whitespace run to a single space
(`re.sub(r"\s+", " ", text)`); `prevWs` records whether the previous
character belonged to a run already replaced. -/
def subWsRunsGo (prevWs : Bool) : List Char → List Char
  | [] => []
  | c :: rest =>
    if pyIsWs c then
      if prevWs then subWsRunsGo true rest else ' ' :: subWsRunsGo true rest
    else c :: subWsRunsGo false rest

/-- `re.sub(r"\s+", " ", text)`. -/
def subWsRuns (l : List Char) : List Char := subWsRunsGo false l

/-- `normalize_text` of `src/extract_crash_pdf.py`: newlines to spaces,
whitespace runs collapsed, then stripped. -/
def normalizeText (s : String) : String :=
  pyStrip (String.mk (subWsRuns (s.toList.map (fun c => if c = '\n' then ' ' else c))))

/-- Base of the report-number pattern `LOCAL\s+INFORMATION\s+([A-Z]\d{11,})`
(the `find` helper searches with `re.IGNORECASE`). -/
def rptBase : Pat :=
  .seq (plitCI "LOCAL")
    (.seq (.cls pWs 1 none) (.seq (plitCI "INFORMATION") (.cls pWs 1 none)))

/-- Capture group `[A-Z]\d{11,}` of the report-number pattern (letters are
case-insensitive under `re.IGNORECASE`). -/
def rptGrp : Pat := .seq (.cls Char.isAlpha 1 (some 1)) (.cls pDig 11 none)

/-- The `report_number` entry of `extract_crash_info`
(src/extract_crash_pdf.py lines 188-191): `find` returns the stripped first
capture group of `LOCAL\s+INFORMATION\s+([A-Z]\d{11,})`, or `None`.
`map_to_required_schema` copies this value verbatim into the output record's
`report_number` field (line 22). -/
def extractCrashInfoRN (text : String) : Option String :=
  (searchLookGroup rptBase rptGrp text).map pyStrip

/-! ## Spec-side definitions

These definitions formalise wording of the specification itself (they are the
comparison side for refutations and amended statements; they are not
translations of repository code, except where the doc comment says so). -/

/-- Whether a string is literally of the `MM/DD/YYYY` shape: two digits,
slash, two digits, slash, four digits. -/
def isMDYShape (s : String) : Bool :=
  match s.toList with
  | [a, b, '/', c, d, '/', e, f, g, h] =>
    a.isDigit && b.isDigit && c.isDigit && d.isDigit &&
    e.isDigit && f.isDigit && g.isDigit && h.isDigit
  | _ => false

/-- Modelled from the spec: the back-conversion direction of the date
round-trip property ("converts to `YYYY-MM-DD` and back-converts to the same
`MM/DD/YYYY`").  No such function exists in the repository; this mirrors
`datetime.strptime(s, "%Y-%m-%d").strftime("%m/%d/%Y")` on canonical
ten-character input: exact `YYYY-MM-DD` digit shape, calendar-valid, year at
least 1, rearranged to `MM/DD/YYYY`. -/
def backConvertMDY (s : String) : Option String :=
  let l := s.toList
  if l.length = 10 then
    let y1 := l.getD 0 ' '
    let y2 := l.getD 1 ' '
    let y3 := l.getD 2 ' '
    let y4 := l.getD 3 ' '
    let m1 := l.getD 5 ' '
    let m2 := l.getD 6 ' '
    let d1 := l.getD 8 ' '
    let d2 := l.getD 9 ' '
    if l.getD 4 ' ' = '-' && l.getD 7 ' ' = '-' &&
       y1.isDigit && y2.isDigit && y3.isDigit && y4.isDigit &&
       m1.isDigit && m2.isDigit && d1.isDigit && d2.isDigit then
      let y := 1000 * (y1.toNat - 48) + 100 * (y2.toNat - 48) +
               10 * (y3.toNat - 48) + (y4.toNat - 48)
      let m := 10 * (m1.toNat - 48) + (m2.toNat - 48)
      let d := 10 * (d1.toNat - 48) + (d2.toNat - 48)
      if 1 ≤ y && 1 ≤ m && m ≤ 12 && 1 ≤ d && d ≤ daysInMonth y m then
        some (String.mk [m1, m2, '/', d1, d2, '/', y1, y2, y3, y4])
      else none
    else none
  else none

/-- Spec-side unit-number comparison: numeric when both parse as integers,
lexical otherwise ("numeric compare when possible, else lexical"). -/
def unitLe (a b : String) : Bool :=
  match pyInt a, pyInt b with
  | some x, some y => decide (x ≤ y)
  | _, _ => a = b || decide (a < b)

/-- Spec-side sortedness of a vehicle list by unit number. -/
def sortedByUnit : List VehicleJson → Bool
  | [] => true
  | [_] => true
  | a :: b :: rest => unitLe a.vehicle_unit b.vehicle_unit && sortedByUnit (b :: rest)

/-! ## Concrete documents used by the claim theorems

`noColor` instantiates the `webcolors` collaborator as "no name resolves"
(the branch it guards is not exercised by any of these documents). -/

/-- Absent/failing `webcolors` collaborator. -/
def noColor : String → Bool := fun _ => false

/-- A composite vehicle-section anchor line (all four marker substrings of
the `_extract_vehicles` section-start condition on one line, as on a real
Ohio OH-1 unit page). -/
def vAnchor : String :=
  "UNIT # OWNER NAME: LAST, FIRST, MIDDLE SAME AS DRIVER OWNER PHONE"

/-- C2 document: one vehicle section and no `NCIC *` explicit-count line. -/
def c2doc : List PdfPage :=
  [{ rawText := "OHIO TRAFFIC CRASH REPORT",
     pureText := vAnchor ++ "\n1  OWNER A  5550001" }]

/-- C3 document: one page whose only line is the report-number anchor line. -/
def c3doc : List PdfPage :=
  [{ rawText := "LOCAL INFORMATION P25102200000570",
     pureText := "LOCAL INFORMATION P25102200000570" }]

/-- C4 document: a vehicle section whose plate/VIN header is followed by the
single-spaced data line of the scenario. -/
def c4doc : List PdfPage :=
  [{ rawText := "OHIO TRAFFIC CRASH REPORT",
     pureText := vAnchor ++
       "\n1  DOE, JOHN  5551234\nLP STATE LICENSE PLATE # VEHICLE IDENTIFICATION #\nKY 2802GB 3C6UR5FL6MG630586 2021 RAM" }]

/-- C5 document: two vehicle sections that both declare unit number 1. -/
def c5doc : List PdfPage :=
  [{ rawText := "OHIO TRAFFIC CRASH REPORT",
     pureText := vAnchor ++ "\n1  OWNER A  5550001\n" ++ vAnchor ++ "\n1  OWNER B  5550002" }]

/-- C5 companion document: two vehicle sections that both declare unit 2. -/
def c5bdoc : List PdfPage :=
  [{ rawText := "OHIO TRAFFIC CRASH REPORT",
     pureText := vAnchor ++ "\n2  OWNER A  5550001\n" ++ vAnchor ++ "\n2  OWNER B  5550002" }]

/-- C6 raw page: an `INJURIES` person section followed by a `UNIT  #` block
declaring unit 2 in the layout the unit branch expects. -/
def c6raw : String :=
  "INJURIES INJURED\nUNIT  #\n2\nNAME: LAST, FIRST, MIDDLE\nDOE, JANE"

/-- C6 document: vehicles 1 and 2, one person whose section declares unit 2. -/
def c6doc : List PdfPage :=
  [{ rawText := c6raw,
     pureText := vAnchor ++ "\n1  OWNER A  5550001\n" ++ vAnchor ++ "\n2  OWNER B  5550002" }]

/-- C7 document: vehicle sections in order unit 2 then unit 1. -/
def c7doc : List PdfPage :=
  [{ rawText := "OHIO TRAFFIC CRASH REPORT",
     pureText := vAnchor ++ "\n2  OWNER A  5550001\n" ++ vAnchor ++ "\n1  OWNER B  5550002" }]

/-- C7 companion document: vehicle sections in order unit 3 then unit 1. -/
def c7bdoc : List PdfPage :=
  [{ rawText := "OHIO TRAFFIC CRASH REPORT",
     pureText := vAnchor ++ "\n3  OWNER A  5550001\n" ++ vAnchor ++ "\n1  OWNER B  5550002" }]

/-- C8 witness document: a crash-date line with a parsable date. -/
def c8doc : List PdfPage :=
  [{ rawText := "CRASH DATE / TIME*\n01/02/2021 14:30",
     pureText := "CRASH DATE / TIME*\n01/02/2021 14:30" }]

/-! ## Helper lemmas -/

theorem digCh_toNat (n : Nat) (h : n ≤ 9) : (digCh n).toNat = 48 + n := by
  interval_cases n <;> decide

theorem digCh_isDigit (n : Nat) (h : n ≤ 9) : (digCh n).isDigit = true := by
  interval_cases n <;> decide

theorem digCh_ne_slash (n : Nat) (h : n ≤ 9) : digCh n ≠ '/' := by
  interval_cases n <;> decide

theorem digCh_eq_digCh (m n : Nat) (hm : m ≤ 9) (hn : n ≤ 9) :
    digCh m = digCh n ↔ m = n := by
  interval_cases m <;> interval_cases n <;> simp <;> decide

theorem monthParse_digits (a b : Nat) (ha : a ≤ 9) (hb : b ≤ 9) (rest : List Char) :
    monthParse (digCh a :: digCh b :: rest) =
      (if 1 ≤ 10 * a + b ∧ 10 * a + b ≤ 12 then some (10 * a + b, rest)
       else if a = 0 then none
       else some (a, digCh b :: rest)) := by
  interval_cases a <;> interval_cases b <;> simp [monthParse, digCh]

theorem dayParse_digits (c d : Nat) (hc : c ≤ 9) (hd : d ≤ 9) (rest : List Char) :
    dayParse (digCh c :: digCh d :: rest) =
      (if 1 ≤ 10 * c + d ∧ 10 * c + d ≤ 31 then some (10 * c + d, rest)
       else if c = 0 then none
       else some (c, digCh d :: rest)) := by
  interval_cases c <;> interval_cases d <;> simp [dayParse, digCh]

theorem yearParse_digits (y1 y2 y3 y4 : Nat)
    (h1 : y1 ≤ 9) (h2 : y2 ≤ 9) (h3 : y3 ≤ 9) (h4 : y4 ≤ 9) :
    yearParse [digCh y1, digCh y2, digCh y3, digCh y4] =
      some (1000 * y1 + 100 * y2 + 10 * y3 + y4) := by
  simp [yearParse, digCh_isDigit _ h1, digCh_isDigit _ h2, digCh_isDigit _ h3,
        digCh_isDigit _ h4, digCh_toNat _ h1, digCh_toNat _ h2, digCh_toNat _ h3,
        digCh_toNat _ h4]
  omega

theorem daysInMonth_le_31 (y m : Nat) : daysInMonth y m ≤ 31 := by
  unfold daysInMonth
  split_ifs <;> omega

/-- Characterization of `strptime("%m/%d/%Y")` on strings of the literal
`MM/DD/YYYY` digit shape: it succeeds exactly on calendar-valid dates and
returns the digit values. -/
theorem pyStrptimeMDY_digits (a b c d y1 y2 y3 y4 : Nat)
    (ha : a ≤ 9) (hb : b ≤ 9) (hc : c ≤ 9) (hd : d ≤ 9)
    (h1 : y1 ≤ 9) (h2 : y2 ≤ 9) (h3 : y3 ≤ 9) (h4 : y4 ≤ 9) :
    pyStrptimeMDY (String.mk [digCh a, digCh b, '/', digCh c, digCh d, '/',
                              digCh y1, digCh y2, digCh y3, digCh y4]) =
      (if 1 ≤ 10 * a + b ∧ 10 * a + b ≤ 12 ∧ 1 ≤ 10 * c + d ∧
          10 * c + d ≤ daysInMonth (1000 * y1 + 100 * y2 + 10 * y3 + y4) (10 * a + b) ∧
          1 ≤ 1000 * y1 + 100 * y2 + 10 * y3 + y4
       then some (10 * a + b, 10 * c + d, 1000 * y1 + 100 * y2 + 10 * y3 + y4)
       else none) := by
  have hlist : (String.mk [digCh a, digCh b, '/', digCh c, digCh d, '/',
      digCh y1, digCh y2, digCh y3, digCh y4]).toList =
      digCh a :: digCh b :: '/' :: digCh c :: digCh d :: '/' ::
      [digCh y1, digCh y2, digCh y3, digCh y4] := rfl
  unfold pyStrptimeMDY
  rw [hlist, monthParse_digits a b ha hb]
  by_cases hm : 1 ≤ 10 * a + b ∧ 10 * a + b ≤ 12
  · rw [if_pos hm]
    simp only
    rw [dayParse_digits c d hc hd]
    by_cases hdv : 1 ≤ 10 * c + d ∧ 10 * c + d ≤ 31
    · rw [if_pos hdv]
      simp only [if_pos rfl, yearParse_digits y1 y2 y3 y4 h1 h2 h3 h4]
      simp only [Bool.and_eq_true, decide_eq_true_eq]
      split_ifs <;> first | rfl | omega
    · rw [if_neg hdv]
      have h31 := daysInMonth_le_31 (1000 * y1 + 100 * y2 + 10 * y3 + y4) (10 * a + b)
      by_cases hc0 : c = 0
      · rw [if_pos hc0]
        split_ifs <;> first | rfl | omega
      · rw [if_neg hc0]
        simp only
        rw [if_neg (digCh_ne_slash d hd)]
        split_ifs <;> first | rfl | omega
  · rw [if_neg hm]
    by_cases ha0 : a = 0
    · rw [if_pos ha0]
      split_ifs <;> first | rfl | omega
    · rw [if_neg ha0]
      simp only
      rw [if_neg (digCh_ne_slash b hb)]
      split_ifs <;> first | rfl | omega

theorem fmt2_digits (a b : Nat) (ha : a ≤ 9) (hb : b ≤ 9) :
    fmt2 (10 * a + b) = String.mk [digCh a, digCh b] := by
  have h1 : (10 * a + b) / 10 % 10 = a := by omega
  have h2 : (10 * a + b) % 10 = b := by omega
  simp [fmt2, h1, h2]

theorem fmt4_digits (y1 y2 y3 y4 : Nat)
    (h1 : y1 ≤ 9) (h2 : y2 ≤ 9) (h3 : y3 ≤ 9) (h4 : y4 ≤ 9) :
    fmt4 (1000 * y1 + 100 * y2 + 10 * y3 + y4) =
      String.mk [digCh y1, digCh y2, digCh y3, digCh y4] := by
  have e1 : (1000 * y1 + 100 * y2 + 10 * y3 + y4) / 1000 % 10 = y1 := by omega
  have e2 : (1000 * y1 + 100 * y2 + 10 * y3 + y4) / 100 % 10 = y2 := by omega
  have e3 : (1000 * y1 + 100 * y2 + 10 * y3 + y4) / 10 % 10 = y3 := by omega
  have e4 : (1000 * y1 + 100 * y2 + 10 * y3 + y4) % 10 = y4 := by omega
  simp [fmt4, e1, e2, e3, e4]

theorem pySplitGo_no_ws (l : List Char) (hl : ∀ ch ∈ l, pyIsWs ch = false) :
    ∀ cur acc, pySplitGo cur acc l =
      if (cur.reverse ++ l).isEmpty then acc else acc ++ [cur.reverse ++ l] := by
  induction l with
  | nil =>
    intro cur acc
    cases cur <;> simp [pySplitGo]
  | cons c rest ih =>
    intro cur acc
    have hc : pyIsWs c = false := hl c (List.mem_cons_self c rest)
    have hrest : ∀ ch ∈ rest, pyIsWs ch = false := fun ch hm => hl ch (List.mem_cons_of_mem c hm)
    simp only [pySplitGo, hc, Bool.false_eq_true, if_false]
    rw [ih hrest (c :: cur) acc]
    simp

theorem pySplitWs_single (s : String) (hne : s.toList ≠ [])
    (h : ∀ ch ∈ s.toList, pyIsWs ch = false) : pySplitWs s = [s] := by
  unfold pySplitWs pySplitWsL
  rw [pySplitGo_no_ws s.toList h [] []]
  cases hs : s.toList with
  | nil => exact absurd hs hne
  | cons c rest =>
    simp only [List.reverse_nil, List.nil_append, hs, List.isEmpty_cons,
      Bool.false_eq_true, if_false, List.nil_append, List.map]
    have : String.mk (c :: rest) = s := by
      cases s
      simp_all
    simp [this]

theorem digCh_not_ws (n : Nat) (h : n ≤ 9) : pyIsWs (digCh n) = false := by
  interval_cases n <;> decide

theorem stringMk_append (l m : List Char) :
    String.mk l ++ String.mk m = String.mk (l ++ m) := rfl

/-- Behaviour of the assembler's date normalization on any date string whose
first whitespace token has the literal `MM/DD/YYYY` digit shape: a valid
calendar date is rearranged to `YYYY-MM-DD` (digits preserved), anything else
collapses to the empty string. -/
theorem normalizeCrashDate_token (s : String) (a b c d y1 y2 y3 y4 : Nat)
    (ha : a ≤ 9) (hb : b ≤ 9) (hc : c ≤ 9) (hd : d ≤ 9)
    (h1 : y1 ≤ 9) (h2 : y2 ≤ 9) (h3 : y3 ≤ 9) (h4 : y4 ≤ 9)
    (htok : (pySplitWs s).head? =
      some (String.mk [digCh a, digCh b, '/', digCh c, digCh d, '/',
                       digCh y1, digCh y2, digCh y3, digCh y4])) :
    normalizeCrashDate s =
      (if 1 ≤ 10 * a + b ∧ 10 * a + b ≤ 12 ∧ 1 ≤ 10 * c + d ∧
          10 * c + d ≤ daysInMonth (1000 * y1 + 100 * y2 + 10 * y3 + y4) (10 * a + b) ∧
          1 ≤ 1000 * y1 + 100 * y2 + 10 * y3 + y4
       then String.mk [digCh y1, digCh y2, digCh y3, digCh y4, '-',
                       digCh a, digCh b, '-', digCh c, digCh d]
       else "") := by
  have hne : s ≠ "" := by
    intro he
    rw [he] at htok
    simp [pySplitWs, pySplitWsL, pySplitGo] at htok
  unfold normalizeCrashDate
  rw [if_pos hne, htok]
  simp only
  rw [pyStrptimeMDY_digits a b c d y1 y2 y3 y4 ha hb hc hd h1 h2 h3 h4]
  split_ifs with hv
  · simp only
    rw [fmt4_digits y1 y2 y3 y4 h1 h2 h3 h4, fmt2_digits a b ha hb, fmt2_digits c d hc hd]
    rfl
  · rfl

/-- The spec's back-conversion on the canonical output of a valid date:
digits are rearranged back to `MM/DD/YYYY`. -/
theorem backConvertMDY_digits (a b c d y1 y2 y3 y4 : Nat)
    (ha : a ≤ 9) (hb : b ≤ 9) (hc : c ≤ 9) (hd : d ≤ 9)
    (h1 : y1 ≤ 9) (h2 : y2 ≤ 9) (h3 : y3 ≤ 9) (h4 : y4 ≤ 9)
    (hv : 1 ≤ 10 * a + b ∧ 10 * a + b ≤ 12 ∧ 1 ≤ 10 * c + d ∧
        10 * c + d ≤ daysInMonth (1000 * y1 + 100 * y2 + 10 * y3 + y4) (10 * a + b) ∧
        1 ≤ 1000 * y1 + 100 * y2 + 10 * y3 + y4) :
    backConvertMDY (String.mk [digCh y1, digCh y2, digCh y3, digCh y4, '-',
                               digCh a, digCh b, '-', digCh c, digCh d]) =
      some (String.mk [digCh a, digCh b, '/', digCh c, digCh d, '/',
                       digCh y1, digCh y2, digCh y3, digCh y4]) := by
  unfold backConvertMDY
  simp only [String.toList, List.getD, List.length_cons, List.length_nil,
    List.get?, Option.getD_some, List.getD_cons_zero, List.getD_cons_succ, if_true]
  rw [if_pos (by simp [digCh_isDigit _ ha, digCh_isDigit _ hb, digCh_isDigit _ hc,
    digCh_isDigit _ hd, digCh_isDigit _ h1, digCh_isDigit _ h2, digCh_isDigit _ h3,
    digCh_isDigit _ h4])]
  simp only [digCh_toNat _ ha, digCh_toNat _ hb, digCh_toNat _ hc, digCh_toNat _ hd,
    digCh_toNat _ h1, digCh_toNat _ h2, digCh_toNat _ h3, digCh_toNat _ h4,
    Nat.add_sub_cancel_left]
  rw [if_pos (by simp only [Bool.and_eq_true, decide_eq_true_eq]; omega)]

theorem flatten_nil_of_forall {α β : Type} (xs : List α) (f : α → List β)
    (h : ∀ x ∈ xs, f x = []) : (xs.map f).flatten = [] := by
  induction xs with
  | nil => rfl
  | cons x rest ih =>
    simp only [List.map_cons, List.flatten_cons, h x (List.mem_cons_self x rest),
      List.nil_append]
    exact ih (fun y hy => h y (List.mem_cons_of_mem x hy))

theorem attachFirst_units (u : Int) (pj : PersonJson) (vs : List BuiltVehicle) :
    (attachFirst u pj vs).map (fun v => v.vehicle_unit) =
      vs.map (fun v => v.vehicle_unit) := by
  induction vs with
  | nil => rfl
  | cons v rest ih =>
    unfold attachFirst
    split_ifs <;> simp [ih]

theorem mapPersons_units (ps : List PersonsEntry) :
    ∀ vs : List BuiltVehicle,
      (mapPersonsToVehicles vs ps).map (fun v => v.vehicle_unit) =
        vs.map (fun v => v.vehicle_unit) := by
  induction ps with
  | nil => intro vs; rfl
  | cons p rest ih =>
    intro vs
    unfold mapPersonsToVehicles
    simp only [List.foldl_cons]
    have := ih (attachFirst (p.basic.vehicle_number.getD 1)
      (personJsonOf p.basic p.info p.driver) vs)
    unfold mapPersonsToVehicles at this
    rw [this, attachFirst_units]

theorem space_append_ne (s : String) : " " ++ s ≠ s := by
  intro h
  have hl := congrArg String.length h
  rw [String.length_append] at hl
  have h1 : (" " : String).length = 1 := rfl
  omega

/-! ## Claims -/

/-- C1: a document whose pages yield zero non-empty lines after
normalization is a structural failure: `parse` returns no record at all, so
no partial record with all-empty fields can be emitted for it. -/
theorem c1_empty_document_fails (isColor : String → Bool) (path : String)
    (pages : List PdfPage)
    (h : ∀ pg ∈ pages, normLines pg.rawText = [] ∧ normLines pg.pureText = []) :
    ohioParse isColor path pages = none := by
  have hraw : (pages.map (fun p => normLines p.rawText)).flatten = [] :=
    flatten_nil_of_forall pages _ (fun pg hpg => (h pg hpg).1)
  unfold ohioParse
  rw [hraw]
  rfl

/-- Witness for C1 at a concrete whitespace-only document. -/
theorem c1_witness :
    (∀ pg ∈ [({ rawText := "  \n\t \n", pureText := " " } : PdfPage)],
      normLines pg.rawText = [] ∧ normLines pg.pureText = []) ∧
    ohioParse noColor "w.pdf" [{ rawText := "  \n\t \n", pureText := " " }] = none :=
  ⟨by decide, c1_empty_document_fails noColor "w.pdf" _ (by decide)⟩

/-- C2 counterexample: a parsed document with one assembled vehicle and no
explicit `NCIC *` vehicle-count line has `total_vehicles = "0"`, not the
count `"1"` of assembled vehicle records, refuting the claim as stated. -/
theorem c2_counterexample :
    (ohioParse noColor "c2.pdf" c2doc).map
      (fun r => (r.total_vehicles, toString r.vehicles.length)) = some ("0", "1") ∧
    ("0" : String) ≠ "1" :=
  ⟨by decide, by decide⟩

/-- C2 (amended): `total_vehicles` always equals the string of the explicit
`no_of_vehicles` value resolved by the crash-info extractor (default 0 when
no `NCIC *` count line resolves); it is never derived from the number of
assembled vehicle records, and `_build_final_json` emits no consistency
warning (the source contains no warning call). -/
theorem c2_total_vehicles_explicit (isColor : String → Bool) (path : String)
    (pages : List PdfPage) (r : FinalJson)
    (h : ohioParse isColor path pages = some r) :
    r.total_vehicles =
      toString (extractCrashBasicInfo
        ((pages.map (fun p => normLines p.rawText)).flatten)).no_of_vehicles := by
  unfold ohioParse at h
  dsimp only at h
  split at h
  · exact absurd h (by simp)
  · cases h
    rfl

/-- Witness for C2 (amended) at the concrete one-vehicle document. -/
theorem c2_witness :
    ((ohioParse noColor "c2.pdf" c2doc).getD {}).total_vehicles =
      toString (extractCrashBasicInfo
        ((c2doc.map (fun p => normLines p.rawText)).flatten)).no_of_vehicles :=
  c2_total_vehicles_explicit noColor "c2.pdf" c2doc _ rfl

/-- C3 counterexample: on a line stream whose crash-info page is exactly the
anchor line `LOCAL INFORMATION P25102200000570`, `OhioPdfParser` leaves the
assembled record's `report_number` empty (the value lands in
`incident_number` instead), refuting the claim as stated for this parser. -/
theorem c3_counterexample :
    (ohioParse noColor "c3.pdf" c3doc).map (fun r => r.report_number) = some "" ∧
    ("" : String) ≠ "P25102200000570" :=
  ⟨by decide, by decide⟩

/-- C3 (amended): the standalone `extract_crash_pdf` extractor resolves
`report_number = "P25102200000570"` from the normalized page text containing
that anchor line (and `map_to_required_schema` copies it verbatim), while
`OhioPdfParser` instead stores the value in `incident_number` and leaves
`report_number` empty for such a stream. -/
theorem c3_report_number :
    extractCrashInfoRN (normalizeText "LOCAL INFORMATION P25102200000570") =
      some "P25102200000570" ∧
    (ohioParse noColor "c3.pdf" c3doc).map
      (fun r => (r.incident_number, r.report_number)) = some ("P25102200000570", "") :=
  ⟨by decide, by decide⟩

/-- C4 counterexample: on the scenario's single-spaced data line the parser's
two-space split yields one part, so `plate_state` is the default `" "`, not
`"KY"`, refuting the claim as stated. -/
theorem c4_counterexample :
    (ohioParse noColor "c4.pdf" c4doc).map
      (fun r => r.vehicles.map (fun v => v.plate_state)) = some [" "] ∧
    (" " : String) ≠ "KY" :=
  ⟨by decide, by decide⟩

/-- C4 (amended): for that vehicle section only the VIN is recovered
(`vin = "3C6UR5FL6MG630586"`, the one run of 17 word characters); because the
data line's fields are separated by single spaces, the `\s{2,}` split leaves
one part and the plate/year/make fields keep their defaults, which assembly
renders as `plate_state = " "`, `plate_number = " "`, `vehicle_year = "0"`,
`make = " "` (a space is prepended to the empty fallback). -/
theorem c4_vehicle_fields :
    (ohioParse noColor "c4.pdf" c4doc).map
      (fun r => r.vehicles.map
        (fun v => (v.vehicle_unit, v.plate_state, v.plate_number, v.vin,
                   v.vehicle_year, v.make)))
      = some [("1", " ", " ", "3C6UR5FL6MG630586", "0", " ")] := rfl

/-- C5 counterexample: a document with two vehicle sections both declaring
unit 1 parses to a record whose vehicle unit numbers are `["1", "1"]` —
not pairwise distinct, refuting the claim as stated. -/
theorem c5_counterexample :
    (ohioParse noColor "c5.pdf" c5doc).map
      (fun r => r.vehicles.map (fun v => v.vehicle_unit)) = some ["1", "1"] ∧
    ¬ (["1", "1"] : List String).Nodup :=
  ⟨by decide, by decide⟩

/-- C5 (amended): vehicle unit numbers are not guaranteed pairwise distinct:
each assembled vehicle carries the unit value extracted from its own section
(default 1), with no deduplication or uniqueness enforcement, so sections
declaring equal units produce duplicate unit numbers in the output. -/
theorem c5_units_not_deduplicated :
    (ohioParse noColor "c5b.pdf" c5bdoc).map
      (fun r => r.vehicles.map (fun v => v.vehicle_unit)) = some ["2", "2"] := by
  decide

/-- C6: evaluation at the failing input.  The person section declares
`UNIT # 2`, but `_extract_persons` never resolves any person unit number
(every detail branch is guarded by the truthiness of the freshly-emptied
`current_person` dictionary, which is falsy), so the person's
`vehicle_number` is absent and `_map_persons_to_vehicles` silently routes the
person to the default unit-1 vehicle instead of vehicle 2 — and drops
unmatched persons without any logged warning (the mapper contains no log
call). -/
theorem c6_person_mapping_bug :
    (extractPersons (normLines c6raw)).map (fun p => p.basic.vehicle_number) = [none] ∧
    (ohioParse noColor "c6.pdf" c6doc).map
      (fun r => r.vehicles.map (fun v => (v.vehicle_unit, v.persons.length)))
      = some [("1", 1), ("2", 0)] :=
  ⟨by decide, by decide⟩

/-- C7 counterexample: a document listing unit 2 before unit 1 parses to a
vehicle list in that same order, which is not ascending under the spec's
numeric-then-lexical comparison, refuting the claim as stated. -/
theorem c7_counterexample :
    (ohioParse noColor "c7.pdf" c7doc).map
      (fun r => (r.vehicles.map (fun v => v.vehicle_unit), sortedByUnit r.vehicles))
      = some (["2", "1"], false) ∧
    false ≠ true :=
  ⟨by decide, by decide⟩

/-- C7 (amended): the assembled vehicle list preserves the extraction order
of the vehicle sections — person mapping keeps the vehicle list's unit
sequence unchanged, final assembly only maps the per-vehicle builder over it,
and no sorting by unit number is applied anywhere, so the list is ascending
only when the document itself lists the sections in ascending unit order
(concretely, a document with sections in order 3, 1 assembles to
`["3", "1"]`). -/
theorem c7_document_order_preserved :
    (∀ (vs : List BuiltVehicle) (ps : List PersonsEntry),
      (mapPersonsToVehicles vs ps).map (fun v => v.vehicle_unit) =
        vs.map (fun v => v.vehicle_unit)) ∧
    (∀ (path : String) (crash : CrashInfo) (caseI : CaseInfo)
        (vehs : List BuiltVehicle),
      (buildFinalJson path crash caseI vehs).vehicles.map (fun v => v.vehicle_unit) =
        vehs.map (fun v => toString v.vehicle_unit)) ∧
    (ohioParse noColor "c7b.pdf" c7bdoc).map
      (fun r => r.vehicles.map (fun v => v.vehicle_unit)) = some ["3", "1"] := by
  refine ⟨fun vs ps => mapPersons_units ps vs, fun path crash caseI vehs => ?_, by decide⟩
  simp [buildFinalJson, buildVehicleJson]

/-- C8: record assembly maps a resolved crash-date string whose first
whitespace token is a parsable `MM/DD/YYYY` date to the canonical
`YYYY-MM-DD` rearrangement of the same digits, and maps any date string with
no parsable first token (including the empty string) to the empty string; the
embedding is a total function, so assembly never raises on a bad date (the
source wraps the conversion in a bare `try`/`except`). -/
theorem c8_date_normalization (path : String) (crash : CrashInfo)
    (caseI : CaseInfo) (vehs : List BuiltVehicle) :
    (∀ a b c d y1 y2 y3 y4 : Nat, a ≤ 9 → b ≤ 9 → c ≤ 9 → d ≤ 9 →
      y1 ≤ 9 → y2 ≤ 9 → y3 ≤ 9 → y4 ≤ 9 →
      (pySplitWs crash.date_of_crash).head? =
        some (String.mk [digCh a, digCh b, '/', digCh c, digCh d, '/',
                         digCh y1, digCh y2, digCh y3, digCh y4]) →
      1 ≤ 10 * a + b → 10 * a + b ≤ 12 → 1 ≤ 10 * c + d →
      10 * c + d ≤ daysInMonth (1000 * y1 + 100 * y2 + 10 * y3 + y4) (10 * a + b) →
      1 ≤ 1000 * y1 + 100 * y2 + 10 * y3 + y4 →
      (buildFinalJson path crash caseI vehs).date_of_crash =
        String.mk [digCh y1, digCh y2, digCh y3, digCh y4, '-',
                   digCh a, digCh b, '-', digCh c, digCh d]) ∧
    ((∀ tok, (pySplitWs crash.date_of_crash).head? = some tok →
        pyStrptimeMDY tok = none) →
      (buildFinalJson path crash caseI vehs).date_of_crash = "") := by
  constructor
  · intro a b c d y1 y2 y3 y4 ha hb hc hd h1 h2 h3 h4 htok hm1 hm2 hd1 hd2 hy
    show normalizeCrashDate crash.date_of_crash = _
    rw [normalizeCrashDate_token crash.date_of_crash a b c d y1 y2 y3 y4
      ha hb hc hd h1 h2 h3 h4 htok]
    rw [if_pos ⟨hm1, hm2, hd1, hd2, hy⟩]
  · intro hnone
    show normalizeCrashDate crash.date_of_crash = ""
    unfold normalizeCrashDate
    split_ifs with hs
    · cases hh : (pySplitWs crash.date_of_crash).head? with
      | none => rfl
      | some tok =>
        simp only
        rw [hnone tok hh]
    · rfl

/-- Witness for C8: both directions at concrete crash-info inputs
(`01/02/2021 14:30` normalises to `2021-01-02`; the calendar-invalid
`02/30/2021` collapses to the empty string). -/
theorem c8_witness :
    (buildFinalJson "w.pdf" { date_of_crash := "01/02/2021 14:30" } {} []).date_of_crash =
      "2021-01-02" ∧
    (buildFinalJson "w.pdf" { date_of_crash := "02/30/2021" } {} []).date_of_crash = "" := by
  constructor
  · exact (c8_date_normalization "w.pdf" { date_of_crash := "01/02/2021 14:30" } {} []).1
      0 1 0 2 2 0 2 1 (by decide) (by decide) (by decide) (by decide)
      (by decide) (by decide) (by decide) (by decide) (by decide)
      (by decide) (by decide) (by decide) (by decide) (by decide)
  · refine (c8_date_normalization "w.pdf" { date_of_crash := "02/30/2021" } {} []).2 ?_
    intro tok htok
    have h0 : (pySplitWs "02/30/2021").head? = some "02/30/2021" := by decide
    rw [h0] at htok
    cases htok
    decide

/-- C9 counterexample: `02/30/2021` matches the `MM/DD/YYYY` format but is
not a calendar date, so the code's conversion yields the empty string and the
back-conversion cannot return the original, refuting the round-trip claim as
stated. -/
theorem c9_counterexample :
    isMDYShape "02/30/2021" = true ∧
    normalizeCrashDate "02/30/2021" = "" ∧
    backConvertMDY (normalizeCrashDate "02/30/2021") ≠ some "02/30/2021" :=
  ⟨by decide, by decide, by decide⟩

/-- C9 (amended): every string of the `MM/DD/YYYY` digit shape that denotes a
valid calendar date (month 1-12, day within the month, year at least 1)
converts to `YYYY-MM-DD` and back-converts to the original string. -/
theorem c9_round_trip (a b c d y1 y2 y3 y4 : Nat)
    (ha : a ≤ 9) (hb : b ≤ 9) (hc : c ≤ 9) (hd : d ≤ 9)
    (h1 : y1 ≤ 9) (h2 : y2 ≤ 9) (h3 : y3 ≤ 9) (h4 : y4 ≤ 9)
    (hm1 : 1 ≤ 10 * a + b) (hm2 : 10 * a + b ≤ 12) (hd1 : 1 ≤ 10 * c + d)
    (hd2 : 10 * c + d ≤ daysInMonth (1000 * y1 + 100 * y2 + 10 * y3 + y4) (10 * a + b))
    (hy : 1 ≤ 1000 * y1 + 100 * y2 + 10 * y3 + y4) :
    backConvertMDY (normalizeCrashDate
      (String.mk [digCh a, digCh b, '/', digCh c, digCh d, '/',
                  digCh y1, digCh y2, digCh y3, digCh y4])) =
      some (String.mk [digCh a, digCh b, '/', digCh c, digCh d, '/',
                       digCh y1, digCh y2, digCh y3, digCh y4]) := by
  have hnws : ∀ ch ∈ (String.mk [digCh a, digCh b, '/', digCh c, digCh d, '/',
      digCh y1, digCh y2, digCh y3, digCh y4]).toList, pyIsWs ch = false := by
    intro ch hch
    simp only [String.toList, List.mem_cons, List.not_mem_nil, or_false] at hch
    rcases hch with rfl | rfl | rfl | rfl | rfl | rfl | rfl | rfl | rfl | rfl
    · exact digCh_not_ws a ha
    · exact digCh_not_ws b hb
    · decide
    · exact digCh_not_ws c hc
    · exact digCh_not_ws d hd
    · decide
    · exact digCh_not_ws y1 h1
    · exact digCh_not_ws y2 h2
    · exact digCh_not_ws y3 h3
    · exact digCh_not_ws y4 h4
  have hsingle := pySplitWs_single _ (by simp) hnws
  have htok : (pySplitWs (String.mk [digCh a, digCh b, '/', digCh c, digCh d, '/',
      digCh y1, digCh y2, digCh y3, digCh y4])).head? =
      some (String.mk [digCh a, digCh b, '/', digCh c, digCh d, '/',
        digCh y1, digCh y2, digCh y3, digCh y4]) := by
    rw [hsingle]
    rfl
  rw [normalizeCrashDate_token _ a b c d y1 y2 y3 y4 ha hb hc hd h1 h2 h3 h4 htok]
  rw [if_pos ⟨hm1, hm2, hd1, hd2, hy⟩]
  exact backConvertMDY_digits a b c d y1 y2 y3 y4 ha hb hc hd h1 h2 h3 h4
    ⟨hm1, hm2, hd1, hd2, hy⟩

/-- Witness for C9 (amended) at the concrete date `01/02/2021`. -/
theorem c9_witness :
    backConvertMDY (normalizeCrashDate "01/02/2021") = some "01/02/2021" :=
  c9_round_trip 0 1 0 2 2 0 2 1 (by decide) (by decide) (by decide) (by decide)
    (by decide) (by decide) (by decide) (by decide) (by decide) (by decide)
    (by decide) (by decide) (by decide)

/-- C10: in every assembled vehicle record of the final output (the output
vehicle list is exactly the per-vehicle builder mapped over the intermediate
vehicles), the `make`, `plate_number` and `plate_state` fields are the
extracted (or empty-default) value with exactly one space prepended, and are
therefore never equal to the bare extracted value. -/
theorem c10_leading_space :
    (∀ veh : BuiltVehicle,
      (buildVehicleJson veh).make = " " ++ veh.make ∧
      (buildVehicleJson veh).make ≠ veh.make ∧
      (buildVehicleJson veh).plate_number = " " ++ veh.plate_no ∧
      (buildVehicleJson veh).plate_number ≠ veh.plate_no ∧
      (buildVehicleJson veh).plate_state = " " ++ veh.plate_state ∧
      (buildVehicleJson veh).plate_state ≠ veh.plate_state) ∧
    (∀ (path : String) (crash : CrashInfo) (caseI : CaseInfo)
        (vehs : List BuiltVehicle),
      (buildFinalJson path crash caseI vehs).vehicles = vehs.map buildVehicleJson) := by
  constructor
  · intro veh
    exact ⟨rfl, space_append_ne veh.make, rfl, space_append_ne veh.plate_no,
      rfl, space_append_ne veh.plate_state⟩
  · intro path crash caseI vehs
    rfl

end OhSample
